import Mathlib

/-!
# Verification of the LUMA concurrent checker core

A shallow embedding of the credential-checking engine of the LUMA
repository (Go), covering response classification, global-mode result
aggregation, proxy scoring and selection, health monitoring, task
generation, variable substitution and statistics.

Conventions of the embedding:
* Go `int` becomes `Int`; Go `float64` quantities (scores, uptime, CPM)
  become `ℚ` (the Go code performs no operation on them that
  distinguishes IEEE floats from exact rationals on the inputs at stake,
  and the clamping logic in particular is representation independent).
* Go `time.Time` values are not carried around as absolute dates: the
  code only ever uses differences (`time.Since`), which appear here as
  explicit numeric parameters (seconds, hours or minutes since an event);
  `LastTest.IsZero()` becomes the Boolean field `lastTestIsZero`.
* Mutation of structures behind locks becomes explicit state passing;
  channels and goroutine scheduling become the value-level outcome that
  the corresponding `select` observed (e.g. `ProbeDelivery`).
* Go string-typed enums (`types.BotStatus`, `types.ProxyQuality`) stay
  strings, exactly as in `pkg/types`.
-/

/-- `types.BotStatus` is a string-typed enum in `pkg/types`. -/
abbrev BotStatus := String

/-- `types.BotStatusSuccess = "SUCCESS"`. -/
def BotStatusSuccess : BotStatus := "SUCCESS"

/-- `types.BotStatusFail = "FAIL"`. -/
def BotStatusFail : BotStatus := "FAIL"

/-- `types.BotStatusError = "ERROR"`. -/
def BotStatusError : BotStatus := "ERROR"

/-- `types.Combo`: a credential under test (username/password, optional
email, raw line). -/
structure Combo where
  username : String
  password : String
  email : String
  line : String
  deriving Repr, DecidableEq

/-- The detection- and proxy-relevant fields of `types.Config` (a target).
HTTP-transport template fields (URL, method, headers, body data, cookies,
timeout, retry and rate settings) are omitted: no claim below depends on
them, and they would only be dead weight in the state space. -/
structure Config where
  name : String
  successStrings : List String
  failureStrings : List String
  successStatus : List Int
  failureStatus : List Int
  useProxy : Bool
  requiresProxy : Bool
  deriving Repr, DecidableEq

/-- `sub` occurs as a contiguous run inside `l` (executable infix test on
character lists). -/
def isInfixOfChars (sub : List Char) : List Char → Bool
  | [] => sub.isEmpty
  | c :: rest => sub.isPrefixOf (c :: rest) || isInfixOfChars sub rest

/-- Go `strings.Contains(s, substr)`: `substr` occurs in `s`. -/
def stringsContains (s substr : String) : Bool :=
  isInfixOfChars substr.data s.data

/-- `types.ProxyQuality` is a string-typed enum. -/
abbrev ProxyQuality := String

/-- `types.ProxyQualityExcellent`. -/
def ProxyQualityExcellent : ProxyQuality := "excellent"

/-- `types.ProxyQualityGood`. -/
def ProxyQualityGood : ProxyQuality := "good"

/-- `types.ProxyQualityAverage`. -/
def ProxyQualityAverage : ProxyQuality := "average"

/-- `types.ProxyQualityPoor`. -/
def ProxyQualityPoor : ProxyQuality := "poor"

/-- `types.ProxyQualityDead`. -/
def ProxyQualityDead : ProxyQuality := "dead"

/-- `types.ProxyMetrics` (enhanced `pkg/types`).  `LastSuccessTime` is
omitted: it is write-only in the verified code. -/
structure ProxyMetrics where
  totalRequests : Int
  successfulReqs : Int
  failedRequests : Int
  averageLatency : Int
  minLatency : Int
  maxLatency : Int
  uptime : ℚ
  consecutiveFails : Int
  banDetected : Bool
  deriving Repr, DecidableEq

/-- `types.Proxy` (enhanced `pkg/types`).  The Go field `LastTest :
time.Time` is represented by the Boolean `lastTestIsZero` (the code only
ever asks `LastTest.IsZero()`, i.e. "never probed"; elapsed time since the
last test enters the scoring function as an explicit parameter).  Protocol,
credentials, location and the advanced-capability flags are omitted: no
verified function reads them.  `Metrics` is a value, not a pointer:
`AddProxy` guarantees it non-nil before any verified access. -/
structure Proxy where
  host : String
  port : Int
  working : Bool
  latency : Int
  lastTestIsZero : Bool
  quality : ProxyQuality
  score : ℚ
  metrics : ProxyMetrics
  deriving Repr, DecidableEq

/-- `types.CheckerStats`.  `StartTime` is modelled as an integer number of
seconds on an arbitrary clock; `ElapsedTime` is in seconds, as in Go. -/
structure CheckerStats where
  totalCombos : Int
  validCombos : Int
  invalidCombos : Int
  errorCombos : Int
  currentCPM : ℚ
  averageCPM : ℚ
  startTime : Int
  elapsedTime : Int
  workingProxies : Int
  totalProxies : Int
  activeWorkers : Int
  deriving Repr, DecidableEq

namespace Checker

/-- `Checker.analyzeResponse` (internal/checker/checker.go): ordered
classification of a response.  Each `for` loop with an early `return`
becomes an `any` test; the loops run in source order. -/
def analyzeResponse (body : String) (statusCode : Int) (config : Config) :
    BotStatus :=
  if config.successStatus.any (fun successCode => statusCode == successCode) then
    BotStatusSuccess
  else if config.failureStatus.any (fun failureCode => statusCode == failureCode) then
    BotStatusFail
  else if config.successStrings.any (fun successStr => stringsContains body successStr) then
    BotStatusSuccess
  else if config.failureStrings.any (fun failureStr => stringsContains body failureStr) then
    BotStatusFail
  else
    BotStatusFail

end Checker

namespace GlobalChecker

/-- `GlobalChecker.analyzeResponse` (proxy_health_monitor.go): textually
identical body to `Checker.analyzeResponse`. -/
def analyzeResponse (body : String) (statusCode : Int) (config : Config) :
    BotStatus :=
  if config.successStatus.any (fun successCode => statusCode == successCode) then
    BotStatusSuccess
  else if config.failureStatus.any (fun failureCode => statusCode == failureCode) then
    BotStatusFail
  else if config.successStrings.any (fun successStr => stringsContains body successStr) then
    BotStatusSuccess
  else if config.failureStrings.any (fun failureStr => stringsContains body failureStr) then
    BotStatusFail
  else
    BotStatusFail

end GlobalChecker

namespace Checker

/-- `Checker.getWorkingProxies` (enhanced checker): the proxies whose
`Working` flag is set.  Note this checks only the flag — not the
orchestrator's blacklist or fail counters. -/
def getWorkingProxies (proxies : List Proxy) : List Proxy :=
  proxies.filter (fun proxy => proxy.working)

/-- The state of a `Checker` that the statistics functions read:
its `Stats`, `Config.MaxWorkers` and proxy list. -/
structure CheckerState where
  stats : CheckerStats
  maxWorkers : Int
  proxies : List Proxy
  deriving Repr, DecidableEq

/-- `Checker.updateStats`: bump the counter selected by the result's
status (a `switch` on the `BotStatus` constants; any other status falls
through and bumps nothing), then recompute CPM.  `elapsedMinutes` is
`time.Since(c.Stats.StartTime).Minutes()`. -/
def updateStats (stats : CheckerStats) (status : BotStatus)
    (elapsedMinutes : ℚ) : CheckerStats :=
  let stats :=
    if status = BotStatusSuccess then
      { stats with validCombos := stats.validCombos + 1 }
    else if status = BotStatusFail then
      { stats with invalidCombos := stats.invalidCombos + 1 }
    else if status = BotStatusError then
      { stats with errorCombos := stats.errorCombos + 1 }
    else stats
  if elapsedMinutes > 0 then
    let totalChecks := stats.validCombos + stats.invalidCombos + stats.errorCombos
    { stats with currentCPM := (totalChecks : ℚ) / elapsedMinutes }
  else stats

/-- The status literal stored by `Checker.checkCombo` on a build, transport
or body-read failure: the lowercase string `"error"`, which differs from
`types.BotStatusError = "ERROR"`. -/
def checkComboTransportErrorStatus : BotStatus := "error"

/-- `Checker.GetStats`: copy the stats under the read lock and fill in the
derived fields.  `now` is the clock (seconds) at the moment of the read;
`ElapsedTime = int(time.Since(StartTime).Seconds())`. -/
def GetStats (c : CheckerState) (now : Int) : CheckerStats :=
  { c.stats with
      elapsedTime := now - c.stats.startTime
      activeWorkers := c.maxWorkers
      workingProxies := ((getWorkingProxies c.proxies).length : Int) }

end Checker

namespace GlobalChecker

/-- The aggregation loop of `GlobalChecker.processGlobalTask` over the
per-config sub-results: count sub-results whose status equals `"valid"`
and those whose status equals `"error"` (a `switch` on each
`checkResult.Status`), then derive `(OverallStatus, ValidConfigCount)`:
all-errors → `"error"`, any valid → `"valid"` with the count, otherwise
`"invalid"`; `ValidConfigCount` keeps its zero value outside the valid
branch. -/
def processGlobalTaskOverall (statuses : List BotStatus) : String × Nat :=
  let validCount := statuses.countP (fun s => s == "valid")
  let errorCount := statuses.countP (fun s => s == "error")
  if errorCount = statuses.length then ("error", 0)
  else if validCount > 0 then ("valid", validCount)
  else ("invalid", 0)

end GlobalChecker

namespace AdvancedProxyManager

/-- The state of an `AdvancedProxyManager` (variable_manipulator.go):
proxy collection, round-robin index, the blacklisted-IP set (a Go map,
modelled as the list of inserted hosts) and the fail threshold.
`preferredCountries` and the test client are omitted: the checker is
constructed with `StrategyBestScore`, so no verified path reads them. -/
structure PMState where
  proxies : List Proxy
  currentIndex : Nat
  blacklistedIPs : List String
  maxConsecutiveFails : Int
  deriving Repr, DecidableEq

/-- `NewAdvancedProxyManager`: empty pool, `maxConsecutiveFails: 3`. -/
def newAdvancedProxyManager : PMState :=
  { proxies := [], currentIndex := 0, blacklistedIPs := [],
    maxConsecutiveFails := 3 }

/-- The metrics `AddProxy` installs on a new proxy. -/
def initialProxyMetrics : ProxyMetrics :=
  { totalRequests := 0, successfulReqs := 0, failedRequests := 0,
    averageLatency := 0, minLatency := 9999, maxLatency := 0,
    uptime := 100, consecutiveFails := 0, banDetected := false }

/-- `AddProxy` (value part): initialize metrics, set `Working = true`
optimistically, neutral score 50, quality Average.  (Geolocation
enrichment is best-effort I/O and never alters these fields.) -/
def AddProxy (proxy : Proxy) : Proxy :=
  { proxy with
    metrics := initialProxyMetrics
    working := true
    score := 50
    quality := ProxyQualityAverage }

/-- `AddProxy` (state part): the initialized proxy is appended to the
pool. -/
def AddProxyState (st : PMState) (proxy : Proxy) : PMState :=
  { st with proxies := st.proxies ++ [AddProxy proxy] }

/-- `BlacklistIP`: insert a host into the blacklist map (idempotent). -/
def BlacklistIP (st : PMState) (ip : String) : PMState :=
  if st.blacklistedIPs.contains ip then st
  else { st with blacklistedIPs := st.blacklistedIPs ++ [ip] }

/-- `updateProxyQuality`: recompute uptime (successes / total · 100) and
the quality tier from average latency and uptime.  Never touches the
score. -/
def updateProxyQuality (proxy : Proxy) : Proxy :=
  if proxy.metrics.totalRequests = 0 then
    { proxy with quality := ProxyQualityAverage }
  else
    let uptime : ℚ :=
      (proxy.metrics.successfulReqs : ℚ) / (proxy.metrics.totalRequests : ℚ) * 100
    let proxy := { proxy with metrics := { proxy.metrics with uptime := uptime } }
    let avgLatency := proxy.metrics.averageLatency
    if avgLatency < 100 ∧ uptime ≥ 99 then
      { proxy with quality := ProxyQualityExcellent }
    else if avgLatency < 300 ∧ uptime ≥ 95 then
      { proxy with quality := ProxyQualityGood }
    else if avgLatency < 1000 ∧ uptime ≥ 90 then
      { proxy with quality := ProxyQualityAverage }
    else if uptime > 0 then
      { proxy with quality := ProxyQualityPoor }
    else
      { proxy with quality := ProxyQualityDead }

/-- `calculateProxyScore`: the weighted composite score
`0.4·uptime + 0.3·latency + 0.2·reliability + 0.1·freshness`, clamped to
`[0, 100]` at the end.  `hoursSinceLastTest` is
`time.Since(proxy.LastTest).Hours()`. -/
def calculateProxyScore (hoursSinceLastTest : ℚ) (proxy : Proxy) : Proxy :=
  if proxy.metrics.totalRequests = 0 then
    { proxy with score := 50 }
  else
    let uptimeWeight : ℚ := 4 / 10
    let latencyWeight : ℚ := 3 / 10
    let reliabilityWeight : ℚ := 2 / 10
    let freshnessWeight : ℚ := 1 / 10
    let uptimeScore := proxy.metrics.uptime
    let latencyScore := max 0 (100 - (proxy.metrics.averageLatency : ℚ) / 10)
    let reliabilityScore := max 0 (100 - (proxy.metrics.consecutiveFails : ℚ) * 20)
    let freshnessScore := max 0 (100 - hoursSinceLastTest * 5)
    let score := uptimeScore * uptimeWeight + latencyScore * latencyWeight +
      reliabilityScore * reliabilityWeight + freshnessScore * freshnessWeight
    let score := if score > 100 then 100 else if score < 0 then 0 else score
    { proxy with score := score }

/-- One observed probe outcome for `TestProxyWithContext`: either the test
succeeded with the measured latency, or it failed (error or timeout).
`hoursSinceLastTest` parametrizes the wall-clock freshness term read by
the subsequent score calculation. -/
inductive ProbeOutcome where
  | success (latencyMs : Int) (hoursSinceLastTest : ℚ)
  | failure (latencyMs : Int)

/-- The metric/score update performed by `TestProxyWithContext` after the
network test resolves (the code below the `pm.mutex.Lock()`); the network
call itself is external I/O summarized by the `ProbeOutcome`. -/
def TestProxyWithContext (outcome : ProbeOutcome) (proxy : Proxy) : Proxy :=
  match outcome with
  | .failure latency =>
      let proxy := { proxy with lastTestIsZero := false, latency := latency }
      let proxy := { proxy with
        working := false
        metrics := { proxy.metrics with
          failedRequests := proxy.metrics.failedRequests + 1
          consecutiveFails := proxy.metrics.consecutiveFails + 1 } }
      updateProxyQuality proxy
  | .success latency hoursSinceLastTest =>
      let proxy := { proxy with lastTestIsZero := false, latency := latency }
      let proxy := { proxy with
        working := true
        metrics := { proxy.metrics with
          successfulReqs := proxy.metrics.successfulReqs + 1
          consecutiveFails := 0 } }
      let proxy :=
        if latency < proxy.metrics.minLatency ∨ proxy.metrics.minLatency = (9999 : Int) then
          { proxy with metrics := { proxy.metrics with minLatency := latency } }
        else proxy
      let proxy :=
        if latency > proxy.metrics.maxLatency then
          { proxy with metrics := { proxy.metrics with maxLatency := latency } }
        else proxy
      let proxy :=
        if proxy.metrics.totalRequests > (0 : Int) then
          let avg := Int.tdiv
            (proxy.metrics.averageLatency * proxy.metrics.totalRequests + latency)
            (proxy.metrics.totalRequests + 1)
          { proxy with metrics := { proxy.metrics with averageLatency := avg } }
        else
          { proxy with metrics := { proxy.metrics with averageLatency := latency } }
      let proxy := { proxy with metrics := { proxy.metrics with
        totalRequests := proxy.metrics.totalRequests + 1 } }
      calculateProxyScore hoursSinceLastTest (updateProxyQuality proxy)

/-- A whole sequence of probes applied to one proxy. -/
def runProbes (events : List ProbeOutcome) (proxy : Proxy) : Proxy :=
  events.foldl (fun proxy outcome => TestProxyWithContext outcome proxy) proxy

/-- `AdvancedProxyManager.getWorkingProxies`: the candidate filter — a
proxy is selectable iff (Working or never tested) and not blacklisted and
`ConsecutiveFails < maxConsecutiveFails`. -/
def getWorkingProxies (st : PMState) : List Proxy :=
  st.proxies.filter (fun proxy =>
    (proxy.working || proxy.lastTestIsZero) &&
    !(st.blacklistedIPs.contains proxy.host) &&
    decide (proxy.metrics.consecutiveFails < st.maxConsecutiveFails))

/-- `getBestScoreProxy` sorts its argument with
`sort.Slice(proxies, Score i > Score j)` and returns the first element.
The sort itself is Go's `sort.Slice`, whose contract is: the output is a
permutation of the input, non-increasing in score — and explicitly NOT
stable.  The embedding therefore takes the sorted slice as an argument and
theorems quantify over every slice satisfying `SortSliceByScoreDesc`
below. -/
def getBestScoreProxy (sortedProxies : List Proxy) : Option Proxy :=
  sortedProxies.head?

/-- `GetBestProxy` for the strategy the checker is built with
(`NewChecker` passes `StrategyBestScore`): error (`none`) on an empty
pool, error when the candidate filter leaves nothing, otherwise the
best-score selection over the candidates.  `sortedCandidates` is the
candidate slice after `sort.Slice` (see `getBestScoreProxy`). -/
def GetBestProxy (st : PMState) (sortedCandidates : List Proxy) : Option Proxy :=
  if st.proxies.isEmpty then none
  else if (getWorkingProxies st).isEmpty then none
  else getBestScoreProxy sortedCandidates

end AdvancedProxyManager

/-- The output slice is non-increasing in score: for `i ≤ j`,
`¬ (Score j > Score i)`, i.e. `Score j ≤ Score i`. -/
def ScoreSortedDesc (l : List Proxy) : Prop :=
  l.Pairwise (fun a b => b.score ≤ a.score)

/-- The documented contract of `sort.Slice(input, Score i > Score j)`:
`output` is a permutation of `input`, sorted non-increasingly by score.
Go documents `sort.Slice` as *not* stable, so nothing more can be
assumed about the order of equal-score entries. -/
def SortSliceByScoreDesc (input output : List Proxy) : Prop :=
  input.Perm output ∧ ScoreSortedDesc output

namespace Checker

/-- `Checker.getNextProxy` (enhanced checker): ask the advanced manager
for the best proxy; if that errors, fall back to plain rotation (or
random pick) over the checker's raw `Proxies` slice — with no filter.
`randIdx` stands for the `rand.Intn` draw; `sortedCandidates` as in
`AdvancedProxyManager.GetBestProxy`. -/
def getNextProxy (st : AdvancedProxyManager.PMState)
    (sortedCandidates : List Proxy) (cProxies : List Proxy)
    (proxyIndex : Nat) (proxyRotation : Bool) (randIdx : Nat) : Option Proxy :=
  match AdvancedProxyManager.GetBestProxy st sortedCandidates with
  | some proxy => some proxy
  | none =>
      if cProxies.isEmpty then none
      else if proxyRotation then cProxies.get? (proxyIndex % cProxies.length)
      else cProxies.get? (randIdx % cProxies.length)

/-- `Checker.getNextHealthyProxy`: up to 5 attempts to draw a proxy whose
`Working` flag is set; if none of the draws qualifies, return whatever the
next draw produces ("might be marked as unhealthy but could still work").
`next i` is the result of the i-th `getNextProxy` call. -/
def getNextHealthyProxy (next : Nat → Option Proxy) : Option Proxy :=
  match (List.range 5).findSome? (fun attempt =>
      match next attempt with
      | some proxy => if proxy.working then some proxy else none
      | none => none) with
  | some proxy => some proxy
  | none => next 5

end Checker

namespace ProxyHealthMonitor

/-- `HealthCheckResult` (proxy_health_monitor.go).  `Timestamp` and the
`AdditionalInfo` map (logging metadata) are omitted. -/
structure HealthCheckResult where
  proxyID : String
  success : Bool
  latency : Int
  error : Option String
  deriving Repr, DecidableEq

/-- The result-storage and statistics state of a `ProxyHealthMonitor`.
The error history and circuit-breaker configuration are untouched by the
claims below and omitted. -/
structure MonitorState where
  recentResults : List HealthCheckResult
  maxResultsStore : Nat
  totalChecks : Int
  successfulChecks : Int
  failedChecks : Int
  deriving Repr, DecidableEq

/-- `NewProxyHealthMonitor`: empty storage, keep the last 1000 results. -/
def newProxyHealthMonitor : MonitorState :=
  { recentResults := [], maxResultsStore := 1000, totalChecks := 0,
    successfulChecks := 0, failedChecks := 0 }

/-- `storeHealthCheckResult`: append, then keep only the most recent
`maxResultsStore` entries. -/
def storeHealthCheckResult (hm : MonitorState) (result : HealthCheckResult) :
    MonitorState :=
  let recent := hm.recentResults ++ [result]
  { hm with recentResults :=
      if recent.length > hm.maxResultsStore then
        recent.drop (recent.length - hm.maxResultsStore)
      else recent }

/-- `updateHealthCheckStats`. -/
def updateHealthCheckStats (hm : MonitorState) (success : Bool) : MonitorState :=
  let hm := { hm with totalChecks := hm.totalChecks + 1 }
  if success then { hm with successfulChecks := hm.successfulChecks + 1 }
  else { hm with failedChecks := hm.failedChecks + 1 }

/-- What the `select` in `checkSingleProxy` observes: either the probe
goroutine delivered its result (an optional error) over the channel
before the 30 s context expired, or the deadline fired first. -/
inductive ProbeDelivery where
  | arrived (err : Option String) (latencyMs : Int)
  | deadline

/-- `checkSingleProxy`: handle one probe of one proxy.  If the result
arrived in time, store it, update the stats, and auto-blacklist when the
proxy already shows ≥ 5 consecutive failures; if the 30 s deadline fired,
store a failure result with error `"health check timeout (30s)"`, count a
failed check, and blacklist the proxy immediately.  (Log statements carry
no state and are dropped.) -/
def checkSingleProxy (proxy : Proxy) (delivery : ProbeDelivery)
    (hm : MonitorState) (pm : AdvancedProxyManager.PMState) :
    MonitorState × AdvancedProxyManager.PMState :=
  let proxyID := proxy.host ++ ":" ++ toString proxy.port
  match delivery with
  | .arrived err latencyMs =>
      let result : HealthCheckResult :=
        { proxyID := proxyID, success := err.isNone, latency := latencyMs,
          error := err }
      let hm := storeHealthCheckResult hm result
      let hm := updateHealthCheckStats hm result.success
      let pm :=
        if proxy.metrics.consecutiveFails >= 5 then
          AdvancedProxyManager.BlacklistIP pm proxy.host
        else pm
      (hm, pm)
  | .deadline =>
      let hm := storeHealthCheckResult hm
        { proxyID := proxyID, success := false, latency := 0,
          error := some "health check timeout (30s)" }
      let hm := updateHealthCheckStats hm false
      (hm, AdvancedProxyManager.BlacklistIP pm proxy.host)

end ProxyHealthMonitor

namespace Checker

/-- `types.WorkerTask`: one (credential, target) pair with an optionally
assigned proxy. -/
structure WorkerTask where
  combo : Combo
  config : Config
  proxy : Option Proxy
  deriving Repr, DecidableEq

/-- `Checker.shouldSkipTaskDueToProxy`: skip a hard-required-proxy target
when the checker's raw pool is empty or no proxy has `Working` set.  (The
check reads the checker's own `Working`-flag view, not the orchestrator's
candidate filter.) -/
def shouldSkipTaskDueToProxy (config : Config) (proxies : List Proxy) : Bool :=
  config.requiresProxy &&
    (proxies.isEmpty || (getWorkingProxies proxies).isEmpty)

/-- The warning `shouldSkipTaskDueToProxy` logs on each skip branch. -/
def skipWarning (config : Config) (proxies : List Proxy) : Option String :=
  if config.requiresProxy then
    if proxies.isEmpty then
      some ("Skipping config " ++ config.name ++
        " - requires proxy but none available")
    else if (getWorkingProxies proxies).isEmpty then
      some ("Skipping config " ++ config.name ++
        " - requires proxy but all proxies are dead")
    else none
  else none

/-- `Checker.generateTasks` (enhanced checker), as the list of tasks sent
to the task channel: for each credential and each target, skip when
`shouldSkipTaskDueToProxy` fires; otherwise attach a proxy — the result
of `getNextHealthyProxy` for hard-required targets (skipping the task if
it comes back nil), the result of `getNextProxy` for `UseProxy` targets,
and none otherwise.  `sel combo config` abstracts the proxy-selection
call made for that pair (the selection functions read mutable manager
state and are modelled separately). -/
def generateTasks (combos : List Combo) (configs : List Config)
    (proxies : List Proxy) (sel : Combo → Config → Option Proxy) :
    List WorkerTask :=
  combos.flatMap (fun combo =>
    configs.filterMap (fun config =>
      if shouldSkipTaskDueToProxy config proxies then none
      else if config.requiresProxy then
        match sel combo config with
        | none => none
        | some proxy =>
            some { combo := combo, config := config, proxy := some proxy }
      else if config.useProxy then
        some { combo := combo, config := config, proxy := sel combo config }
      else
        some { combo := combo, config := config, proxy := none }))

end Checker

/-- Go `strings.ReplaceAll` for a pattern with first character `p` and
tail `ps`: replace each leftmost non-overlapping occurrence of
`p :: ps` in the subject by `rep`; replacements are not rescanned. -/
def replaceAllAux (p : Char) (ps : List Char) (rep : List Char) :
    List Char → List Char
  | [] => []
  | c :: rest =>
      if (p :: ps).isPrefixOf (c :: rest) then
        rep ++ replaceAllAux p ps rep (rest.drop ps.length)
      else c :: replaceAllAux p ps rep rest
termination_by l => l.length
decreasing_by
  all_goals simp only [List.length_cons, List.length_drop]
  all_goals omega

/-- Go `strings.ReplaceAll(s, pat, rep)`.  Every pattern the engines pass
is non-empty; for an empty pattern (where Go would interleave `rep`
between characters) the embedding returns `s` unchanged, unexercised. -/
def stringsReplaceAll (s pat rep : String) : String :=
  match pat.data with
  | [] => s
  | p :: ps => ⟨replaceAllAux p ps rep.data s.data⟩

namespace GlobalChecker

/-- `GlobalChecker.replaceVariables` (proxy_health_monitor.go): twelve
chained `strings.ReplaceAll` calls — OpenBullet, SilverBullet, Loli and
alternative placeholder styles, all resolving to the same credential
fields. -/
def replaceVariables (text : String) (combo : Combo) : String :=
  let text := stringsReplaceAll text "<USER>" combo.username
  let text := stringsReplaceAll text "<PASS>" combo.password
  let text := stringsReplaceAll text "<EMAIL>" combo.email
  let text := stringsReplaceAll text "<username>" combo.username
  let text := stringsReplaceAll text "<password>" combo.password
  let text := stringsReplaceAll text "<email>" combo.email
  let text := stringsReplaceAll text "[USERNAME]" combo.username
  let text := stringsReplaceAll text "[PASSWORD]" combo.password
  let text := stringsReplaceAll text "[EMAIL]" combo.email
  let text := stringsReplaceAll text "{USER}" combo.username
  let text := stringsReplaceAll text "{PASS}" combo.password
  let text := stringsReplaceAll text "{EMAIL}" combo.email
  text

end GlobalChecker

namespace VariableManipulator

/-- The tagged value of a `Variable` (variable_manager.go): Go stores an
`interface{}` next to a `VarType` tag; `SetVariable` keeps the two
consistent, so the embedding fuses tag and payload. -/
inductive VariableValue where
  | single (value : String)
  | list (values : List String)
  | dict (pairs : List (String × String))
  deriving Repr, DecidableEq

/-- `Variable` (variable_manager.go). -/
structure Variable where
  name : String
  value : VariableValue
  isCapture : Bool
  deriving Repr, DecidableEq

/-- `VariableList` (variable_manager.go): a name-indexed store (a Go
map), as an association list read through `lookup`. -/
def VariableList := List (String × Variable)

/-- `VariableList.Get`: map lookup, `none` for the Go error case. -/
def VariableList.Get (vars : VariableList) (name : String) : Option Variable :=
  List.lookup name vars

/-- `VariableList.Set`: map insert; consing shadows any older binding,
which `Get` never reaches — the observable behavior of overwriting. -/
def VariableList.Set (vars : VariableList) (var : Variable) : VariableList :=
  (var.name, var) :: vars

/-- Go `strings.TrimSuffix`. -/
def stringsTrimSuffix (s suffix : String) : String :=
  if suffix.data.isSuffixOf s.data then
    ⟨s.data.take (s.data.length - suffix.data.length)⟩
  else s

/-- `variableToString`: Single prints its value, List joins with commas,
Dictionary prints `k=v` pairs joined with commas (Go map iteration order
is unspecified; the association-list order stands in for it). -/
def variableToString (var : Variable) : String :=
  match var.value with
  | .single value => value
  | .list values => String.intercalate "," values
  | .dict pairs =>
      String.intercalate "," (pairs.map (fun kv => kv.1 ++ "=" ++ kv.2))

/-- `handleArrayVariable`: resolve `VAR[0]`-style references; on any
malformation return the original `<...>` text. -/
def handleArrayVariable (vars : VariableList) (varExpr : String) : String :=
  let parts := varExpr.splitOn "["
  if parts.length ≠ 2 then "<" ++ varExpr ++ ">"
  else
    let varName := parts.headD ""
    let indexPart := stringsTrimSuffix (parts.getD 1 "") "]"
    match VariableList.Get vars varName with
    | none => "<" ++ varExpr ++ ">"
    | some var =>
        match var.value with
        | .list values =>
            match indexPart.toInt? with
            | none => "<" ++ varExpr ++ ">"
            | some index =>
                if index < 0 ∨ (values.length : Int) ≤ index then
                  "<" ++ varExpr ++ ">"
                else values.getD index.toNat ""
        | _ => "<" ++ varExpr ++ ">"

/-- `handleDictionaryVariable`: resolve `VAR(key)`-style references; on
any malformation return the original `<...>` text. -/
def handleDictionaryVariable (vars : VariableList) (varExpr : String) : String :=
  let parts := varExpr.splitOn "("
  if parts.length ≠ 2 then "<" ++ varExpr ++ ">"
  else
    let varName := parts.headD ""
    let keyPart := stringsTrimSuffix (parts.getD 1 "") ")"
    match VariableList.Get vars varName with
    | none => "<" ++ varExpr ++ ">"
    | some var =>
        match var.value with
        | .dict pairs =>
            match List.lookup keyPart pairs with
            | some value => value
            | none => "<" ++ varExpr ++ ">"
        | _ => "<" ++ varExpr ++ ">"

/-- The replacement function `ReplaceVariables` applies to the matched
expression between the angle brackets: array references, dictionary
references, then a plain lookup; an unknown variable keeps the original
`<...>` match text. -/
def resolveMatch (vars : VariableList) (varExpr : String) : String :=
  if stringsContains varExpr "[" && stringsContains varExpr "]" then
    handleArrayVariable vars varExpr
  else if stringsContains varExpr "(" && stringsContains varExpr ")" then
    handleDictionaryVariable vars varExpr
  else
    match VariableList.Get vars varExpr with
    | some var => variableToString var
    | none => "<" ++ varExpr ++ ">"

/-- The `regexp.MustCompile("<([^<>]+)>").ReplaceAllStringFunc` loop of
`ReplaceVariables`: find each leftmost `<`, a non-empty run of characters
other than `<` and `>`, and a closing `>`; substitute `resolveMatch` of
the run (the substitution is not rescanned); copy everything else. -/
def replaceVariablesAux (vars : VariableList) : List Char → List Char
  | [] => []
  | c :: rest =>
      if c = '<' then
        let run := rest.takeWhile (fun d => d != '<' && d != '>')
        match hdrop : rest.drop run.length with
        | d :: after =>
            if d = '>' && !run.isEmpty then
              (resolveMatch vars ⟨run⟩).data ++ replaceVariablesAux vars after
            else c :: replaceVariablesAux vars rest
        | [] => c :: replaceVariablesAux vars rest
      else c :: replaceVariablesAux vars rest
termination_by l => l.length
decreasing_by
  all_goals simp only [List.length_cons]
  · have hlen := congrArg List.length hdrop
    simp only [List.length_drop, List.length_cons] at hlen
    omega
  all_goals omega

/-- `VariableManipulator.ReplaceVariables`. -/
def ReplaceVariables (vars : VariableList) (text : String) : String :=
  ⟨replaceVariablesAux vars text.data⟩

end VariableManipulator

namespace Checker

/-- The variable store `Checker.replaceVariables` builds before
substituting: the six `SetVariable` calls installing the credential
fields (each a Single string, not a capture) into the manipulator's
store, which `NewWorkflowEngine` created empty. -/
def comboVariableList (combo : Combo) : VariableManipulator.VariableList :=
  let vars : VariableManipulator.VariableList := []
  let vars := vars.Set { name := "USER", value := .single combo.username, isCapture := false }
  let vars := vars.Set { name := "PASS", value := .single combo.password, isCapture := false }
  let vars := vars.Set { name := "EMAIL", value := .single combo.email, isCapture := false }
  let vars := vars.Set { name := "username", value := .single combo.username, isCapture := false }
  let vars := vars.Set { name := "password", value := .single combo.password, isCapture := false }
  let vars := vars.Set { name := "email", value := .single combo.email, isCapture := false }
  vars

/-- `Checker.replaceVariables` (both checker.go and the enhanced checker):
set the six combo variables, then run the manipulator's regexp-based
`ReplaceVariables` — which only understands the `<...>` syntax. -/
def replaceVariables (text : String) (combo : Combo) : String :=
  VariableManipulator.ReplaceVariables (comboVariableList combo) text

end Checker

/-- The Scenario-B target: success strings `["welcome"]`, failure strings
`["invalid"]`, no status-code rules. -/
def scenarioBConfig : Config :=
  { name := "scenarioB", successStrings := ["welcome"],
    failureStrings := ["invalid"], successStatus := [], failureStatus := [],
    useProxy := false, requiresProxy := false }

/-- A concrete all-zero statistics record, used to instantiate theorems. -/
def sampleStats : CheckerStats :=
  { totalCombos := 0, validCombos := 0, invalidCombos := 0, errorCombos := 0,
    currentCPM := 0, averageCPM := 0, startTime := 0, elapsedTime := 0,
    workingProxies := 0, totalProxies := 0, activeWorkers := 0 }

/-- A concrete checker state with zero stats, one worker and no proxies. -/
def sampleCheckerState : Checker.CheckerState :=
  { stats := sampleStats, maxWorkers := 1, proxies := [] }

/-- A concrete selectable proxy with the given host and score (fresh
metrics, `Working` set, never blacklisted). -/
def mkTestProxy (host : String) (score : ℚ) : Proxy :=
  { host := host, port := 8080, working := true, latency := 0,
    lastTestIsZero := false, quality := ProxyQualityAverage, score := score,
    metrics := AdvancedProxyManager.initialProxyMetrics }

/-- First-added of two equal-score candidates. -/
def proxyFirstSeen : Proxy := mkTestProxy "10.0.0.1" 50

/-- Second-added of two equal-score candidates. -/
def proxySecondSeen : Proxy := mkTestProxy "10.0.0.2" 50

/-- A lone low-score candidate. -/
def proxyLowScore : Proxy := mkTestProxy "10.0.0.3" 10

/-- A proxy that is not selectable: probed and failing (`Working = false`)
with 5 consecutive failures. -/
def deadProxy : Proxy :=
  { mkTestProxy "203.0.113.9" 10 with
    working := false
    metrics := { AdvancedProxyManager.initialProxyMetrics with consecutiveFails := 5 } }

/-- A manager state whose only proxy is `deadProxy`, with its host
blacklisted: the candidate filter leaves nothing. -/
def blacklistedPMState : AdvancedProxyManager.PMState :=
  { proxies := [deadProxy], currentIndex := 0,
    blacklistedIPs := ["203.0.113.9"], maxConsecutiveFails := 3 }

/-- A fresh, healthy, selectable proxy. -/
def healthyProxy : Proxy := mkTestProxy "192.0.2.4" 80

/-- A manager state holding only `healthyProxy`, nothing blacklisted. -/
def healthyPMState : AdvancedProxyManager.PMState :=
  { proxies := [healthyProxy], currentIndex := 0, blacklistedIPs := [],
    maxConsecutiveFails := 3 }

/-- A target that hard-requires a proxy. -/
def requiresProxyConfig : Config :=
  { name := "hardTarget", successStrings := [], failureStrings := [],
    successStatus := [], failureStatus := [], useProxy := true,
    requiresProxy := true }

/-- A concrete credential. -/
def sampleCombo : Combo :=
  { username := "alice", password := "hunter2", email := "",
    line := "alice:hunter2" }

/-- A proxy whose `Working` flag is still set although the orchestrator
has blacklisted its host. -/
def workingButBlacklistedProxy : Proxy := mkTestProxy "198.51.100.20" 50

/-- A manager state in which `workingButBlacklistedProxy` is the only
proxy and its host is blacklisted: the orchestrator's candidate filter
leaves nothing, yet the checker's `Working`-flag view is non-empty. -/
def contradictoryPMState : AdvancedProxyManager.PMState :=
  { proxies := [workingButBlacklistedProxy], currentIndex := 0,
    blacklistedIPs := ["198.51.100.20"], maxConsecutiveFails := 3 }


/-- **C1.** Response classification follows the ordered rule of the spec:
status code in the success set wins, then status code in the failure set,
then any success string in the body, then any failure string, and the
default is Fail — the result is always Success or Fail, never a third
status.  Both engines (`Checker.analyzeResponse` and
`GlobalChecker.analyzeResponse`) implement the same rule, and the
Scenario-B target classifies the body `"welcome back"` as Success. -/
theorem C1_analyzeResponse_ordered_rule :
    (∀ body statusCode config,
      ((statusCode ∈ config.successStatus →
          Checker.analyzeResponse body statusCode config = BotStatusSuccess) ∧
        (statusCode ∉ config.successStatus → statusCode ∈ config.failureStatus →
          Checker.analyzeResponse body statusCode config = BotStatusFail) ∧
        (statusCode ∉ config.successStatus → statusCode ∉ config.failureStatus →
          (∃ s ∈ config.successStrings, stringsContains body s = true) →
          Checker.analyzeResponse body statusCode config = BotStatusSuccess) ∧
        (statusCode ∉ config.successStatus → statusCode ∉ config.failureStatus →
          (∀ s ∈ config.successStrings, stringsContains body s = false) →
          Checker.analyzeResponse body statusCode config = BotStatusFail) ∧
        (Checker.analyzeResponse body statusCode config = BotStatusSuccess ∨
          Checker.analyzeResponse body statusCode config = BotStatusFail)) ∧
      GlobalChecker.analyzeResponse body statusCode config =
        Checker.analyzeResponse body statusCode config) ∧
    Checker.analyzeResponse "welcome back" 200 scenarioBConfig = BotStatusSuccess := by
  constructor
  · intro body statusCode config
    refine ⟨⟨?_, ?_, ?_, ?_, ?_⟩, rfl⟩
    · intro hmem
      have : config.successStatus.any (fun c => statusCode == c) = true := by
        simp only [List.any_eq_true, beq_iff_eq]
        exact ⟨statusCode, hmem, rfl⟩
      simp [Checker.analyzeResponse, this]
    · intro hns hmem
      have h1 : config.successStatus.any (fun c => statusCode == c) = false := by
        simp only [List.any_eq_false, beq_iff_eq]
        intro x hx hcontra
        exact hns (hcontra ▸ hx)
      have h2 : config.failureStatus.any (fun c => statusCode == c) = true := by
        simp only [List.any_eq_true, beq_iff_eq]
        exact ⟨statusCode, hmem, rfl⟩
      simp [Checker.analyzeResponse, h1, h2]
    · intro hns hnf ⟨s, hs, hcs⟩
      have h1 : config.successStatus.any (fun c => statusCode == c) = false := by
        simp only [List.any_eq_false, beq_iff_eq]
        intro x hx hcontra
        exact hns (hcontra ▸ hx)
      have h2 : config.failureStatus.any (fun c => statusCode == c) = false := by
        simp only [List.any_eq_false, beq_iff_eq]
        intro x hx hcontra
        exact hnf (hcontra ▸ hx)
      have h3 : config.successStrings.any (fun t => stringsContains body t) = true := by
        simp only [List.any_eq_true]
        exact ⟨s, hs, hcs⟩
      simp [Checker.analyzeResponse, h1, h2, h3]
    · intro hns hnf hnostr
      have h1 : config.successStatus.any (fun c => statusCode == c) = false := by
        simp only [List.any_eq_false, beq_iff_eq]
        intro x hx hcontra
        exact hns (hcontra ▸ hx)
      have h2 : config.failureStatus.any (fun c => statusCode == c) = false := by
        simp only [List.any_eq_false, beq_iff_eq]
        intro x hx hcontra
        exact hnf (hcontra ▸ hx)
      have h3 : config.successStrings.any (fun t => stringsContains body t) = false := by
        simp only [List.any_eq_false]
        intro s hs
        simp [hnostr s hs]
      by_cases h4 : config.failureStrings.any (fun t => stringsContains body t) = true
      · simp [Checker.analyzeResponse, h1, h2, h3, h4]
      · simp [Checker.analyzeResponse, h1, h2, h3, h4]
    · unfold Checker.analyzeResponse
      split
      · exact Or.inl rfl
      · split
        · exact Or.inr rfl
        · split
          · exact Or.inl rfl
          · split
            · exact Or.inr rfl
            · exact Or.inr rfl
  · decide

/-- **C1 witness.** The ordered-rule theorem applied at the Scenario-B
input: status code 200 is in neither status set, `"welcome"` occurs in
`"welcome back"`, so the classification is Success. -/
theorem C1_analyzeResponse_ordered_rule_witness :
    Checker.analyzeResponse "welcome back" 200 scenarioBConfig = BotStatusSuccess :=
  C1_analyzeResponse_ordered_rule.2

/-- **C2 (failing input).**  The sub-check status vocabulary does not
match the aggregation switch of `processGlobalTask`: a completed sub-check
is classified `"SUCCESS"`/`"FAIL"` by `GlobalChecker.analyzeResponse`
(and transport failures are stored as the literal `"error"` or as
`"ERROR"`), yet the aggregation counts statuses equal to `"valid"` for
`validCount`.  Hence one credential against 3 targets where 2 sub-checks
succeed and 1 errors — sub-statuses `["SUCCESS", "SUCCESS", "error"]` —
aggregates to `OverallStatus = "invalid"` with `ValidConfigCount = 0`,
not to Valid with 2 as the spec requires. -/
theorem C2_processGlobalTask_vocabulary_mismatch :
    (∀ body statusCode config,
      GlobalChecker.analyzeResponse body statusCode config = BotStatusSuccess ∨
      GlobalChecker.analyzeResponse body statusCode config = BotStatusFail) ∧
    GlobalChecker.processGlobalTaskOverall ["SUCCESS", "SUCCESS", "error"] =
      ("invalid", 0) := by
  constructor
  · intro body statusCode config
    unfold GlobalChecker.analyzeResponse
    split
    · exact Or.inl rfl
    · split
      · exact Or.inr rfl
      · split
        · exact Or.inl rfl
        · split
          · exact Or.inr rfl
          · exact Or.inr rfl
  · decide

/-- **C9 (counterexample).**  Two `GetStats` snapshots of the *same*
checker state (no results ingested in between) taken two seconds apart
are not identical: `ElapsedTime` is recomputed from the clock on every
read, so it moves from 0 to 2. -/
theorem C9_snapshots_differ_over_time :
    Checker.GetStats sampleCheckerState 0 ≠ Checker.GetStats sampleCheckerState 2 := by
  intro h
  have h2 := congrArg CheckerStats.elapsedTime h
  simp [Checker.GetStats, sampleCheckerState, sampleStats] at h2

/-- **C9 (amended).**  Reading the statistics is a pure snapshot: it
mutates nothing (it is a function of the state), and any two snapshots of
the same state agree on every reported field — counters, CPM, start time,
proxy counts, worker count — except `ElapsedTime`, which equals the
seconds elapsed between `StartTime` and the moment of the read and hence
advances with the clock. -/
theorem C9_GetStats_snapshot_fields :
    ∀ (c : Checker.CheckerState) (now1 now2 : Int),
      (Checker.GetStats c now1).totalCombos = (Checker.GetStats c now2).totalCombos ∧
      (Checker.GetStats c now1).validCombos = (Checker.GetStats c now2).validCombos ∧
      (Checker.GetStats c now1).invalidCombos = (Checker.GetStats c now2).invalidCombos ∧
      (Checker.GetStats c now1).errorCombos = (Checker.GetStats c now2).errorCombos ∧
      (Checker.GetStats c now1).currentCPM = (Checker.GetStats c now2).currentCPM ∧
      (Checker.GetStats c now1).averageCPM = (Checker.GetStats c now2).averageCPM ∧
      (Checker.GetStats c now1).startTime = (Checker.GetStats c now2).startTime ∧
      (Checker.GetStats c now1).workingProxies = (Checker.GetStats c now2).workingProxies ∧
      (Checker.GetStats c now1).totalProxies = (Checker.GetStats c now2).totalProxies ∧
      (Checker.GetStats c now1).activeWorkers = (Checker.GetStats c now2).activeWorkers ∧
      (Checker.GetStats c now1).elapsedTime = now1 - c.stats.startTime := by
  intro c now1 now2
  simp [Checker.GetStats]

/-- **C10.**  `updateStats` bumps a counter only when the result status is
exactly one of the `BotStatus` constants `"SUCCESS"`, `"FAIL"` or
`"ERROR"`; for any other status the three counters are left unchanged.
In particular the lowercase literal `"error"` stored by
`Checker.checkCombo` on transport failures increments no counter, so
such errors are invisible in the aggregate statistics. -/
theorem C10_updateStats_unknown_status_frame :
    (∀ (stats : CheckerStats) (status : BotStatus) (elapsedMinutes : ℚ),
      status ≠ BotStatusSuccess → status ≠ BotStatusFail → status ≠ BotStatusError →
      (Checker.updateStats stats status elapsedMinutes).validCombos = stats.validCombos ∧
      (Checker.updateStats stats status elapsedMinutes).invalidCombos = stats.invalidCombos ∧
      (Checker.updateStats stats status elapsedMinutes).errorCombos = stats.errorCombos) ∧
    (∀ (stats : CheckerStats) (elapsedMinutes : ℚ),
      (Checker.updateStats stats Checker.checkComboTransportErrorStatus
          elapsedMinutes).validCombos = stats.validCombos ∧
      (Checker.updateStats stats Checker.checkComboTransportErrorStatus
          elapsedMinutes).invalidCombos = stats.invalidCombos ∧
      (Checker.updateStats stats Checker.checkComboTransportErrorStatus
          elapsedMinutes).errorCombos = stats.errorCombos) := by
  have main : ∀ (stats : CheckerStats) (status : BotStatus) (elapsedMinutes : ℚ),
      status ≠ BotStatusSuccess → status ≠ BotStatusFail → status ≠ BotStatusError →
      (Checker.updateStats stats status elapsedMinutes).validCombos = stats.validCombos ∧
      (Checker.updateStats stats status elapsedMinutes).invalidCombos = stats.invalidCombos ∧
      (Checker.updateStats stats status elapsedMinutes).errorCombos = stats.errorCombos := by
    intro stats status elapsedMinutes h1 h2 h3
    unfold Checker.updateStats
    simp only [if_neg h1, if_neg h2, if_neg h3]
    split <;> simp
  exact ⟨main, fun stats em =>
    main stats Checker.checkComboTransportErrorStatus em
      (by decide) (by decide) (by decide)⟩

/-- **C10 witness.**  The frame property applied at a concrete state and
the concrete unknown status `"error"`: starting from the all-zero stats,
ingesting a transport-failure result changes no counter. -/
theorem C10_updateStats_unknown_status_frame_witness :
    (Checker.updateStats sampleStats Checker.checkComboTransportErrorStatus 1).validCombos =
        sampleStats.validCombos ∧
      (Checker.updateStats sampleStats Checker.checkComboTransportErrorStatus 1).invalidCombos =
        sampleStats.invalidCombos ∧
      (Checker.updateStats sampleStats Checker.checkComboTransportErrorStatus 1).errorCombos =
        sampleStats.errorCombos :=
  C10_updateStats_unknown_status_frame.1 sampleStats
    Checker.checkComboTransportErrorStatus 1 (by decide) (by decide) (by decide)

/-- `updateProxyQuality` never changes the score field. -/
theorem updateProxyQuality_score (proxy : Proxy) :
    (AdvancedProxyManager.updateProxyQuality proxy).score = proxy.score := by
  unfold AdvancedProxyManager.updateProxyQuality
  dsimp only
  split_ifs <;> rfl

/-- Whatever the metrics, the score `calculateProxyScore` writes lies in
`[0, 100]`: either the default 50, or the weighted sum clamped at the
end. -/
theorem calculateProxyScore_score_bounds (hoursSinceLastTest : ℚ) (proxy : Proxy) :
    0 ≤ (AdvancedProxyManager.calculateProxyScore hoursSinceLastTest proxy).score ∧
    (AdvancedProxyManager.calculateProxyScore hoursSinceLastTest proxy).score ≤ 100 := by
  unfold AdvancedProxyManager.calculateProxyScore
  dsimp only
  split_ifs with h1 h2 h3
  · constructor <;> norm_num
  · constructor <;> norm_num
  · constructor <;> norm_num
  · constructor <;> linarith

/-- One probe update keeps the score in `[0, 100]`: a failed probe leaves
the score untouched, a successful one recomputes it through the clamped
`calculateProxyScore`. -/
theorem testProxy_score_bounds (outcome : AdvancedProxyManager.ProbeOutcome)
    (proxy : Proxy) (hp : 0 ≤ proxy.score ∧ proxy.score ≤ 100) :
    0 ≤ (AdvancedProxyManager.TestProxyWithContext outcome proxy).score ∧
    (AdvancedProxyManager.TestProxyWithContext outcome proxy).score ≤ 100 := by
  cases outcome with
  | failure latency =>
      simpa [AdvancedProxyManager.TestProxyWithContext, updateProxyQuality_score]
        using hp
  | success latency hoursSinceLastTest =>
      simp only [AdvancedProxyManager.TestProxyWithContext]
      exact calculateProxyScore_score_bounds _ _

/-- The score stays in `[0, 100]` along any probe sequence, given it
starts there. -/
theorem runProbes_score_bounds (events : List AdvancedProxyManager.ProbeOutcome)
    (proxy : Proxy) (hp : 0 ≤ proxy.score ∧ proxy.score ≤ 100) :
    0 ≤ (AdvancedProxyManager.runProbes events proxy).score ∧
    (AdvancedProxyManager.runProbes events proxy).score ≤ 100 := by
  induction events generalizing proxy with
  | nil => exact hp
  | cons outcome rest ih =>
      simp only [AdvancedProxyManager.runProbes, List.foldl_cons] at *
      exact ih _ (testProxy_score_bounds outcome proxy hp)

/-- **C3.**  Starting from the state `AddProxy` creates (neutral score
50), every sequence of probe updates — successes with arbitrary latency
and staleness, failures — leaves the proxy's score within `[0, 100]`:
failures never touch the score and successes recompute it through the
clamped `calculateProxyScore`. -/
theorem C3_score_always_in_range
    (events : List AdvancedProxyManager.ProbeOutcome) (proxy : Proxy) :
    0 ≤ (AdvancedProxyManager.runProbes events (AdvancedProxyManager.AddProxy proxy)).score ∧
    (AdvancedProxyManager.runProbes events (AdvancedProxyManager.AddProxy proxy)).score ≤ 100 :=
  runProbes_score_bounds events _ (by constructor <;> norm_num [AdvancedProxyManager.AddProxy])

/-- **C4 (counterexample).**  `getBestScoreProxy` sorts with `sort.Slice`,
which Go documents as *not stable*: on the two equal-score candidates
`[proxyFirstSeen, proxySecondSeen]` the slice `[proxySecondSeen,
proxyFirstSeen]` is a permitted result of the sort (it is a permutation,
non-increasing in score), and selection then returns `proxySecondSeen` —
not the first-seen candidate.  So the tie-break is not guaranteed to be
first-seen-deterministic. -/
theorem C4_tie_break_not_first_seen :
    SortSliceByScoreDesc [proxyFirstSeen, proxySecondSeen]
      [proxySecondSeen, proxyFirstSeen] ∧
    AdvancedProxyManager.getBestScoreProxy [proxySecondSeen, proxyFirstSeen] =
      some proxySecondSeen ∧
    proxyFirstSeen.score = proxySecondSeen.score ∧
    proxySecondSeen ≠ proxyFirstSeen := by
  refine ⟨⟨List.Perm.swap proxySecondSeen proxyFirstSeen [], ?_⟩, rfl, rfl, by decide⟩
  simp [ScoreSortedDesc, proxyFirstSeen, proxySecondSeen, mkTestProxy]

/-- **C4 (amended).**  For every non-empty candidate set and every slice
the (unstable) sort may produce, `getBestScoreProxy` returns a candidate
whose score is maximal among the candidates; which of several equal-score
maxima is returned depends on the sort's internal order and is not
specified. -/
theorem C4_getBestScoreProxy_returns_max
    (candidates sorted : List Proxy)
    (hsort : SortSliceByScoreDesc candidates sorted)
    (hne : candidates ≠ []) :
    ∃ proxy, AdvancedProxyManager.getBestScoreProxy sorted = some proxy ∧
      proxy ∈ candidates ∧ ∀ q ∈ candidates, q.score ≤ proxy.score := by
  obtain ⟨hperm, hsorted⟩ := hsort
  cases sorted with
  | nil => exact absurd hperm.eq_nil hne
  | cons best rest =>
      refine ⟨best, rfl, hperm.symm.subset (List.mem_cons_self best rest), ?_⟩
      intro q hq
      have hq2 : q ∈ best :: rest := hperm.subset hq
      rcases List.mem_cons.mp hq2 with h | h
      · exact le_of_eq (congrArg Proxy.score h)
      · exact (List.pairwise_cons.mp hsorted).1 q h

/-- **C4 witness.**  The max-score property applied at the singleton
candidate list `[proxyLowScore]` (sorted output equal to the input). -/
theorem C4_getBestScoreProxy_returns_max_witness :
    ∃ proxy, AdvancedProxyManager.getBestScoreProxy [proxyLowScore] = some proxy ∧
      proxy ∈ [proxyLowScore] ∧ ∀ q ∈ [proxyLowScore], q.score ≤ proxy.score :=
  C4_getBestScoreProxy_returns_max [proxyLowScore] [proxyLowScore]
    ⟨List.Perm.refl _, by simp [ScoreSortedDesc]⟩ (by simp)

/-- **C5 (counterexample).**  When the candidate filter leaves nothing,
`GetBestProxy` errors and `Checker.getNextProxy` falls back to plain
rotation over the raw proxy list with no filter: with the pool consisting
of the single blacklisted proxy `deadProxy` (5 consecutive fails,
`Working = false`), selection returns exactly that proxy — contradicting
"never returns a proxy that is blacklisted or with ConsecutiveFails ≥ 5". -/
theorem C5_fallback_returns_unselectable_proxy :
    Checker.getNextProxy blacklistedPMState [] [deadProxy] 0 true 0 =
      some deadProxy ∧
    blacklistedPMState.blacklistedIPs.contains deadProxy.host = true ∧
    (5 : Int) ≤ deadProxy.metrics.consecutiveFails ∧
    deadProxy.working = false := by
  refine ⟨rfl, rfl, by decide, rfl⟩

/-- **C5 (amended).**  The manager-level selection `GetBestProxy` does
respect the candidate filter: whatever slice the sort produces from the
candidates, a returned proxy is selectable — Working or never probed, not
blacklisted, and with `ConsecutiveFails` under the manager threshold
(3, hence in particular under 5).  The violation of the original claim is
confined to `Checker.getNextProxy`'s unfiltered fallback path. -/
theorem C5_GetBestProxy_only_selectable
    (st : AdvancedProxyManager.PMState) (sorted : List Proxy) (proxy : Proxy)
    (hperm : (AdvancedProxyManager.getWorkingProxies st).Perm sorted)
    (hsel : AdvancedProxyManager.GetBestProxy st sorted = some proxy) :
    proxy ∈ AdvancedProxyManager.getWorkingProxies st ∧
    (proxy.working || proxy.lastTestIsZero) = true ∧
    st.blacklistedIPs.contains proxy.host = false ∧
    proxy.metrics.consecutiveFails < st.maxConsecutiveFails ∧
    (st.maxConsecutiveFails = 3 → proxy.metrics.consecutiveFails < 5) := by
  unfold AdvancedProxyManager.GetBestProxy at hsel
  split_ifs at hsel with h1 h2
  have hmem : proxy ∈ sorted := by
    cases sorted with
    | nil => simp [AdvancedProxyManager.getBestScoreProxy] at hsel
    | cons best rest =>
        simp only [AdvancedProxyManager.getBestScoreProxy, List.head?_cons,
          Option.some.injEq] at hsel
        exact hsel ▸ List.mem_cons_self best rest
  have hw : proxy ∈ AdvancedProxyManager.getWorkingProxies st := hperm.symm.subset hmem
  have hfilter := List.mem_filter.mp hw
  have hcond := hfilter.2
  simp only [Bool.and_eq_true, Bool.not_eq_true', decide_eq_true_eq] at hcond
  refine ⟨hw, hcond.1.1, hcond.1.2, hcond.2, fun h3 => ?_⟩
  have := hcond.2
  omega

/-- **C5 witness.**  The filter property applied at the healthy
single-proxy state: the selected proxy is `healthyProxy` and satisfies
every filter conjunct. -/
theorem C5_GetBestProxy_only_selectable_witness :
    healthyProxy ∈ AdvancedProxyManager.getWorkingProxies healthyPMState ∧
    (healthyProxy.working || healthyProxy.lastTestIsZero) = true ∧
    healthyPMState.blacklistedIPs.contains healthyProxy.host = false ∧
    healthyProxy.metrics.consecutiveFails < healthyPMState.maxConsecutiveFails ∧
    (healthyPMState.maxConsecutiveFails = 3 →
      healthyProxy.metrics.consecutiveFails < 5) :=
  C5_GetBestProxy_only_selectable healthyPMState [healthyProxy] healthyProxy
    (by have h : AdvancedProxyManager.getWorkingProxies healthyPMState =
          [healthyProxy] := rfl
        exact h ▸ List.Perm.refl [healthyProxy]) rfl

/-- `BlacklistIP` makes its argument a member of the blacklist. -/
theorem blacklistIP_contains (pm : AdvancedProxyManager.PMState) (ip : String) :
    (AdvancedProxyManager.BlacklistIP pm ip).blacklistedIPs.contains ip = true := by
  unfold AdvancedProxyManager.BlacklistIP
  split_ifs with h
  · exact h
  · simp

/-- After `storeHealthCheckResult` the newest entry survives the trim to
`maxResultsStore` entries, provided the store keeps at least one. -/
theorem storeHealthCheckResult_getLast (hm : ProxyHealthMonitor.MonitorState)
    (result : ProxyHealthMonitor.HealthCheckResult)
    (hmax : 1 ≤ hm.maxResultsStore) :
    (ProxyHealthMonitor.storeHealthCheckResult hm result).recentResults.getLast? =
      some result := by
  unfold ProxyHealthMonitor.storeHealthCheckResult
  dsimp only
  split_ifs with h
  · have hlen : (hm.recentResults ++ [result]).length =
        hm.recentResults.length + 1 := by simp
    have hk : (hm.recentResults ++ [result]).length - hm.maxResultsStore ≤
        hm.recentResults.length := by omega
    rw [List.drop_append_of_le_length hk]
    simp
  · simp

/-- **C8.**  When the 30-second deadline of a health probe fires before
the probe goroutine delivers a result, `checkSingleProxy` records a
timeout failure for the proxy — the newest stored result carries
`Success = false` and the error `"health check timeout (30s)"`, and the
failed/total check counters advance — and blacklists the proxy's host
immediately.  (The probe is thus never left pending: the `select` always
takes one of the two branches, and this theorem pins down everything the
deadline branch does.) -/
theorem C8_deadline_records_timeout_and_blacklists
    (proxy : Proxy) (hm : ProxyHealthMonitor.MonitorState)
    (pm : AdvancedProxyManager.PMState)
    (hmax : 1 ≤ hm.maxResultsStore) :
    ((ProxyHealthMonitor.checkSingleProxy proxy .deadline hm
        pm).2).blacklistedIPs.contains proxy.host = true ∧
    ((ProxyHealthMonitor.checkSingleProxy proxy .deadline hm
        pm).1).recentResults.getLast? =
      some { proxyID := proxy.host ++ ":" ++ toString proxy.port,
             success := false, latency := 0,
             error := some "health check timeout (30s)" } ∧
    ((ProxyHealthMonitor.checkSingleProxy proxy .deadline hm pm).1).failedChecks =
      hm.failedChecks + 1 ∧
    ((ProxyHealthMonitor.checkSingleProxy proxy .deadline hm pm).1).totalChecks =
      hm.totalChecks + 1 := by
  refine ⟨blacklistIP_contains pm proxy.host, ?_, ?_, ?_⟩
  · show (ProxyHealthMonitor.updateHealthCheckStats _ false).recentResults.getLast? = _
    have : ∀ m : ProxyHealthMonitor.MonitorState,
        (ProxyHealthMonitor.updateHealthCheckStats m false).recentResults =
          m.recentResults := by
      intro m
      unfold ProxyHealthMonitor.updateHealthCheckStats
      simp
    rw [this]
    exact storeHealthCheckResult_getLast hm _ hmax
  · show (ProxyHealthMonitor.updateHealthCheckStats _ false).failedChecks = _
    unfold ProxyHealthMonitor.updateHealthCheckStats
      ProxyHealthMonitor.storeHealthCheckResult
    simp
  · show (ProxyHealthMonitor.updateHealthCheckStats _ false).totalChecks = _
    unfold ProxyHealthMonitor.updateHealthCheckStats
      ProxyHealthMonitor.storeHealthCheckResult
    simp

/-- **C8 witness.**  The deadline branch applied to the fresh monitor and
the healthy single-proxy manager state: the proxy's host gets
blacklisted and the timeout failure is the newest stored result. -/
theorem C8_deadline_records_timeout_and_blacklists_witness :
    ((ProxyHealthMonitor.checkSingleProxy healthyProxy .deadline
        ProxyHealthMonitor.newProxyHealthMonitor
        healthyPMState).2).blacklistedIPs.contains healthyProxy.host = true ∧
    ((ProxyHealthMonitor.checkSingleProxy healthyProxy .deadline
        ProxyHealthMonitor.newProxyHealthMonitor
        healthyPMState).1).recentResults.getLast? =
      some { proxyID := healthyProxy.host ++ ":" ++ toString healthyProxy.port,
             success := false, latency := 0,
             error := some "health check timeout (30s)" } ∧
    ((ProxyHealthMonitor.checkSingleProxy healthyProxy .deadline
        ProxyHealthMonitor.newProxyHealthMonitor
        healthyPMState).1).failedChecks =
      ProxyHealthMonitor.newProxyHealthMonitor.failedChecks + 1 ∧
    ((ProxyHealthMonitor.checkSingleProxy healthyProxy .deadline
        ProxyHealthMonitor.newProxyHealthMonitor
        healthyPMState).1).totalChecks =
      ProxyHealthMonitor.newProxyHealthMonitor.totalChecks + 1 :=
  C8_deadline_records_timeout_and_blacklists healthyProxy
    ProxyHealthMonitor.newProxyHealthMonitor healthyPMState (by decide)

/-- Every task `generateTasks` emits belongs to a target that was not
skipped by `shouldSkipTaskDueToProxy`. -/
theorem generateTasks_not_skipped
    (combos : List Combo) (configs : List Config) (proxies : List Proxy)
    (sel : Combo → Config → Option Proxy) (task : Checker.WorkerTask)
    (htask : task ∈ Checker.generateTasks combos configs proxies sel) :
    Checker.shouldSkipTaskDueToProxy task.config proxies = false := by
  simp only [Checker.generateTasks, List.mem_flatMap, List.mem_filterMap] at htask
  obtain ⟨combo, hcombo, config, hconfig, hf⟩ := htask
  by_cases hskip : Checker.shouldSkipTaskDueToProxy config proxies = true
  · rw [if_pos hskip] at hf
    exact absurd hf (by simp)
  · have hc : task.config = config := by
      rw [if_neg hskip] at hf
      split at hf
      · split at hf
        · exact absurd hf (by simp)
        · rw [Option.some.injEq] at hf
          subst hf
          rfl
      · split at hf
        · rw [Option.some.injEq] at hf
          subst hf
          rfl
        · rw [Option.some.injEq] at hf
          subst hf
          rfl
    rw [hc]
    simpa using hskip

/-- **C6 (amended).**  When the checker's view of the pool has no working
proxy (in particular when the pool is empty), a target that hard-requires
a proxy is skipped: `shouldSkipTaskDueToProxy` fires, a warning is
logged, and `generateTasks` emits no task for that target.  (The skip
check reads the checker's `Working`-flag view, not the orchestrator's
full candidate filter — see the counterexample.) -/
theorem C6_requiresProxy_no_working_pool_generates_no_tasks
    (combos : List Combo) (configs : List Config) (proxies : List Proxy)
    (sel : Combo → Config → Option Proxy) (config : Config)
    (hreq : config.requiresProxy = true)
    (hnone : Checker.getWorkingProxies proxies = []) :
    Checker.shouldSkipTaskDueToProxy config proxies = true ∧
    (Checker.skipWarning config proxies).isSome = true ∧
    ∀ task ∈ Checker.generateTasks combos configs proxies sel,
      task.config ≠ config := by
  have hskip : Checker.shouldSkipTaskDueToProxy config proxies = true := by
    simp [Checker.shouldSkipTaskDueToProxy, hreq, hnone]
  refine ⟨hskip, ?_, ?_⟩
  · unfold Checker.skipWarning
    simp only [hreq, if_true]
    split <;> simp_all [hnone]
  · intro task htask heq
    have hns := generateTasks_not_skipped combos configs proxies sel task htask
    rw [heq, hskip] at hns
    exact absurd hns (by simp)

/-- **C6 witness.**  Scenario C: a RequiresProxy target against an empty
proxy pool — the skip predicate fires, the warning is present, and no
generated task carries that target. -/
theorem C6_requiresProxy_no_working_pool_generates_no_tasks_witness :
    Checker.shouldSkipTaskDueToProxy requiresProxyConfig [] = true ∧
    (Checker.skipWarning requiresProxyConfig []).isSome = true ∧
    ∀ task ∈ Checker.generateTasks [sampleCombo] [requiresProxyConfig] []
        (fun _ _ => none),
      task.config ≠ requiresProxyConfig :=
  C6_requiresProxy_no_working_pool_generates_no_tasks [sampleCombo]
    [requiresProxyConfig] [] (fun _ _ => none) requiresProxyConfig rfl rfl

/-- **C6 (counterexample).**  "No selectable candidate" in the
orchestrator's sense does not imply zero tasks: with the pool holding the
single proxy `workingButBlacklistedProxy` — `Working` still true but its
host blacklisted — the orchestrator's candidate filter is empty, yet the
scheduler's skip check (which looks only at the `Working` flag) does not
fire, `getNextHealthyProxy` falls back to the unfiltered rotation and
hands out the blacklisted proxy, and a task for the hard-required target
is generated. -/
theorem C6_blacklisted_working_proxy_still_generates_task :
    AdvancedProxyManager.getWorkingProxies contradictoryPMState = [] ∧
    Checker.getNextHealthyProxy (fun _ =>
        Checker.getNextProxy contradictoryPMState [] [workingButBlacklistedProxy]
          0 true 0) = some workingButBlacklistedProxy ∧
    Checker.generateTasks [sampleCombo] [requiresProxyConfig]
        [workingButBlacklistedProxy]
        (fun _ _ => Checker.getNextHealthyProxy (fun _ =>
          Checker.getNextProxy contradictoryPMState []
            [workingButBlacklistedProxy] 0 true 0)) =
      [{ combo := sampleCombo, config := requiresProxyConfig,
         proxy := some workingButBlacklistedProxy }] := by
  refine ⟨rfl, rfl, rfl⟩

/-- Every list of characters is a prefix of itself. -/
theorem isPrefixOf_self_chars (l : List Char) : l.isPrefixOf l = true := by
  induction l with
  | nil => rfl
  | cons c rest ih => simp [List.isPrefixOf, ih]

/-- `replaceAllAux` is the identity when the pattern occurs nowhere. -/
theorem replaceAllAux_of_no_occurrence (p : Char) (ps rep s : List Char)
    (h : isInfixOfChars (p :: ps) s = false) :
    replaceAllAux p ps rep s = s := by
  induction s with
  | nil => simp only [replaceAllAux]
  | cons c rest ih =>
      rw [isInfixOfChars] at h
      rw [Bool.or_eq_false_iff] at h
      simp only [replaceAllAux]
      rw [if_neg (by simp [h.1]), ih h.2]

/-- `strings.ReplaceAll` is the identity when `strings.Contains` is
false. -/
theorem stringsReplaceAll_of_not_contains (s pat rep : String)
    (h : stringsContains s pat = false) :
    stringsReplaceAll s pat rep = s := by
  cases hpat : pat.data with
  | nil => simp [stringsReplaceAll, hpat]
  | cons p ps =>
      unfold stringsContains at h
      rw [hpat] at h
      simp only [stringsReplaceAll, hpat]
      rw [replaceAllAux_of_no_occurrence p ps rep.data s.data h]

/-- Replacing a whole non-empty pattern by `rep` inside the pattern
itself yields exactly `rep`. -/
theorem stringsReplaceAll_self (pat rep : String) (p : Char) (ps : List Char)
    (hpat : pat.data = p :: ps) :
    stringsReplaceAll pat pat rep = rep := by
  simp only [stringsReplaceAll, hpat, replaceAllAux,
    isPrefixOf_self_chars, if_true, List.drop_length, List.append_nil]

/-- A pattern whose first character never occurs in `s` occurs nowhere in
`s`. -/
theorem isInfixOfChars_eq_false_of_head_not_mem (p : Char) (ps s : List Char)
    (h : p ∉ s) : isInfixOfChars (p :: ps) s = false := by
  induction s with
  | nil => rfl
  | cons c rest ih =>
      have hpc : ¬p = c := fun he => h (he ▸ List.mem_cons_self c rest)
      rw [isInfixOfChars, Bool.or_eq_false_iff]
      constructor
      · simp only [List.isPrefixOf, Bool.and_eq_false_iff]
        exact Or.inl (by simp [hpc])
      · exact ih (fun hm => h (List.mem_cons_of_mem c hm))

/-- String version of the previous lemma. -/
theorem stringsContains_eq_false_of_fresh_head (s pat : String) (p : Char)
    (ps : List Char) (hpat : pat.data = p :: ps) (h : p ∉ s.data) :
    stringsContains s pat = false := by
  unfold stringsContains
  rw [hpat]
  exact isInfixOfChars_eq_false_of_head_not_mem p ps s.data h

/-- `strings.ReplaceAll` leaves `s` unchanged when the pattern's first
character does not occur in `s`. -/
theorem stringsReplaceAll_fresh (s pat rep : String) (p : Char)
    (ps : List Char) (hpat : pat.data = p :: ps) (h : p ∉ s.data) :
    stringsReplaceAll s pat rep = s :=
  stringsReplaceAll_of_not_contains s pat rep
    (stringsContains_eq_false_of_fresh_head s pat p ps hpat h)


/-- `GlobalChecker.replaceVariables` resolves `<USER>` to the
credential's username. -/
theorem globalReplace_USER_openbullet (combo : Combo)
    (hlt : '<' ∉ combo.username.data) (hlb : '[' ∉ combo.username.data)
    (hbr : '\x7b' ∉ combo.username.data) :
    GlobalChecker.replaceVariables "<USER>" combo = combo.username := by
  unfold GlobalChecker.replaceVariables
  dsimp only
  rw [stringsReplaceAll_self "<USER>" combo.username '<' _ rfl]
  rw [stringsReplaceAll_fresh combo.username "<PASS>" combo.password '<' _ rfl hlt]
  rw [stringsReplaceAll_fresh combo.username "<EMAIL>" combo.email '<' _ rfl hlt]
  rw [stringsReplaceAll_fresh combo.username "<username>" combo.username '<' _ rfl hlt]
  rw [stringsReplaceAll_fresh combo.username "<password>" combo.password '<' _ rfl hlt]
  rw [stringsReplaceAll_fresh combo.username "<email>" combo.email '<' _ rfl hlt]
  rw [stringsReplaceAll_fresh combo.username "[USERNAME]" combo.username '[' _ rfl hlb]
  rw [stringsReplaceAll_fresh combo.username "[PASSWORD]" combo.password '[' _ rfl hlb]
  rw [stringsReplaceAll_fresh combo.username "[EMAIL]" combo.email '[' _ rfl hlb]
  rw [stringsReplaceAll_fresh combo.username "{USER}" combo.username '\x7b' _ rfl hbr]
  rw [stringsReplaceAll_fresh combo.username "{PASS}" combo.password '\x7b' _ rfl hbr]
  rw [stringsReplaceAll_fresh combo.username "{EMAIL}" combo.email '\x7b' _ rfl hbr]

/-- `GlobalChecker.replaceVariables` resolves `<PASS>` to the
credential's password. -/
theorem globalReplace_PASS_openbullet (combo : Combo)
    (hlt : '<' ∉ combo.password.data) (hlb : '[' ∉ combo.password.data)
    (hbr : '\x7b' ∉ combo.password.data) :
    GlobalChecker.replaceVariables "<PASS>" combo = combo.password := by
  unfold GlobalChecker.replaceVariables
  dsimp only
  rw [stringsReplaceAll_of_not_contains "<PASS>" "<USER>" combo.username (by decide)]
  rw [stringsReplaceAll_self "<PASS>" combo.password '<' _ rfl]
  rw [stringsReplaceAll_fresh combo.password "<EMAIL>" combo.email '<' _ rfl hlt]
  rw [stringsReplaceAll_fresh combo.password "<username>" combo.username '<' _ rfl hlt]
  rw [stringsReplaceAll_fresh combo.password "<password>" combo.password '<' _ rfl hlt]
  rw [stringsReplaceAll_fresh combo.password "<email>" combo.email '<' _ rfl hlt]
  rw [stringsReplaceAll_fresh combo.password "[USERNAME]" combo.username '[' _ rfl hlb]
  rw [stringsReplaceAll_fresh combo.password "[PASSWORD]" combo.password '[' _ rfl hlb]
  rw [stringsReplaceAll_fresh combo.password "[EMAIL]" combo.email '[' _ rfl hlb]
  rw [stringsReplaceAll_fresh combo.password "{USER}" combo.username '\x7b' _ rfl hbr]
  rw [stringsReplaceAll_fresh combo.password "{PASS}" combo.password '\x7b' _ rfl hbr]
  rw [stringsReplaceAll_fresh combo.password "{EMAIL}" combo.email '\x7b' _ rfl hbr]

/-- `GlobalChecker.replaceVariables` resolves `<EMAIL>` to the
credential's email. -/
theorem globalReplace_EMAIL_openbullet (combo : Combo)
    (hlt : '<' ∉ combo.email.data) (hlb : '[' ∉ combo.email.data)
    (hbr : '\x7b' ∉ combo.email.data) :
    GlobalChecker.replaceVariables "<EMAIL>" combo = combo.email := by
  unfold GlobalChecker.replaceVariables
  dsimp only
  rw [stringsReplaceAll_of_not_contains "<EMAIL>" "<USER>" combo.username (by decide)]
  rw [stringsReplaceAll_of_not_contains "<EMAIL>" "<PASS>" combo.password (by decide)]
  rw [stringsReplaceAll_self "<EMAIL>" combo.email '<' _ rfl]
  rw [stringsReplaceAll_fresh combo.email "<username>" combo.username '<' _ rfl hlt]
  rw [stringsReplaceAll_fresh combo.email "<password>" combo.password '<' _ rfl hlt]
  rw [stringsReplaceAll_fresh combo.email "<email>" combo.email '<' _ rfl hlt]
  rw [stringsReplaceAll_fresh combo.email "[USERNAME]" combo.username '[' _ rfl hlb]
  rw [stringsReplaceAll_fresh combo.email "[PASSWORD]" combo.password '[' _ rfl hlb]
  rw [stringsReplaceAll_fresh combo.email "[EMAIL]" combo.email '[' _ rfl hlb]
  rw [stringsReplaceAll_fresh combo.email "{USER}" combo.username '\x7b' _ rfl hbr]
  rw [stringsReplaceAll_fresh combo.email "{PASS}" combo.password '\x7b' _ rfl hbr]
  rw [stringsReplaceAll_fresh combo.email "{EMAIL}" combo.email '\x7b' _ rfl hbr]

/-- `GlobalChecker.replaceVariables` resolves `<username>` to the
credential's username. -/
theorem globalReplace_username_silverbullet (combo : Combo)
    (hlt : '<' ∉ combo.username.data) (hlb : '[' ∉ combo.username.data)
    (hbr : '\x7b' ∉ combo.username.data) :
    GlobalChecker.replaceVariables "<username>" combo = combo.username := by
  unfold GlobalChecker.replaceVariables
  dsimp only
  rw [stringsReplaceAll_of_not_contains "<username>" "<USER>" combo.username (by decide)]
  rw [stringsReplaceAll_of_not_contains "<username>" "<PASS>" combo.password (by decide)]
  rw [stringsReplaceAll_of_not_contains "<username>" "<EMAIL>" combo.email (by decide)]
  rw [stringsReplaceAll_self "<username>" combo.username '<' _ rfl]
  rw [stringsReplaceAll_fresh combo.username "<password>" combo.password '<' _ rfl hlt]
  rw [stringsReplaceAll_fresh combo.username "<email>" combo.email '<' _ rfl hlt]
  rw [stringsReplaceAll_fresh combo.username "[USERNAME]" combo.username '[' _ rfl hlb]
  rw [stringsReplaceAll_fresh combo.username "[PASSWORD]" combo.password '[' _ rfl hlb]
  rw [stringsReplaceAll_fresh combo.username "[EMAIL]" combo.email '[' _ rfl hlb]
  rw [stringsReplaceAll_fresh combo.username "{USER}" combo.username '\x7b' _ rfl hbr]
  rw [stringsReplaceAll_fresh combo.username "{PASS}" combo.password '\x7b' _ rfl hbr]
  rw [stringsReplaceAll_fresh combo.username "{EMAIL}" combo.email '\x7b' _ rfl hbr]

/-- `GlobalChecker.replaceVariables` resolves `<password>` to the
credential's password. -/
theorem globalReplace_password_silverbullet (combo : Combo)
    (hlt : '<' ∉ combo.password.data) (hlb : '[' ∉ combo.password.data)
    (hbr : '\x7b' ∉ combo.password.data) :
    GlobalChecker.replaceVariables "<password>" combo = combo.password := by
  unfold GlobalChecker.replaceVariables
  dsimp only
  rw [stringsReplaceAll_of_not_contains "<password>" "<USER>" combo.username (by decide)]
  rw [stringsReplaceAll_of_not_contains "<password>" "<PASS>" combo.password (by decide)]
  rw [stringsReplaceAll_of_not_contains "<password>" "<EMAIL>" combo.email (by decide)]
  rw [stringsReplaceAll_of_not_contains "<password>" "<username>" combo.username (by decide)]
  rw [stringsReplaceAll_self "<password>" combo.password '<' _ rfl]
  rw [stringsReplaceAll_fresh combo.password "<email>" combo.email '<' _ rfl hlt]
  rw [stringsReplaceAll_fresh combo.password "[USERNAME]" combo.username '[' _ rfl hlb]
  rw [stringsReplaceAll_fresh combo.password "[PASSWORD]" combo.password '[' _ rfl hlb]
  rw [stringsReplaceAll_fresh combo.password "[EMAIL]" combo.email '[' _ rfl hlb]
  rw [stringsReplaceAll_fresh combo.password "{USER}" combo.username '\x7b' _ rfl hbr]
  rw [stringsReplaceAll_fresh combo.password "{PASS}" combo.password '\x7b' _ rfl hbr]
  rw [stringsReplaceAll_fresh combo.password "{EMAIL}" combo.email '\x7b' _ rfl hbr]

/-- `GlobalChecker.replaceVariables` resolves `<email>` to the
credential's email. -/
theorem globalReplace_email_silverbullet (combo : Combo)
    (hlt : '<' ∉ combo.email.data) (hlb : '[' ∉ combo.email.data)
    (hbr : '\x7b' ∉ combo.email.data) :
    GlobalChecker.replaceVariables "<email>" combo = combo.email := by
  unfold GlobalChecker.replaceVariables
  dsimp only
  rw [stringsReplaceAll_of_not_contains "<email>" "<USER>" combo.username (by decide)]
  rw [stringsReplaceAll_of_not_contains "<email>" "<PASS>" combo.password (by decide)]
  rw [stringsReplaceAll_of_not_contains "<email>" "<EMAIL>" combo.email (by decide)]
  rw [stringsReplaceAll_of_not_contains "<email>" "<username>" combo.username (by decide)]
  rw [stringsReplaceAll_of_not_contains "<email>" "<password>" combo.password (by decide)]
  rw [stringsReplaceAll_self "<email>" combo.email '<' _ rfl]
  rw [stringsReplaceAll_fresh combo.email "[USERNAME]" combo.username '[' _ rfl hlb]
  rw [stringsReplaceAll_fresh combo.email "[PASSWORD]" combo.password '[' _ rfl hlb]
  rw [stringsReplaceAll_fresh combo.email "[EMAIL]" combo.email '[' _ rfl hlb]
  rw [stringsReplaceAll_fresh combo.email "{USER}" combo.username '\x7b' _ rfl hbr]
  rw [stringsReplaceAll_fresh combo.email "{PASS}" combo.password '\x7b' _ rfl hbr]
  rw [stringsReplaceAll_fresh combo.email "{EMAIL}" combo.email '\x7b' _ rfl hbr]

/-- `GlobalChecker.replaceVariables` resolves `[USERNAME]` to the
credential's username. -/
theorem globalReplace_USERNAME_loli (combo : Combo)
    (hlt : '<' ∉ combo.username.data) (hlb : '[' ∉ combo.username.data)
    (hbr : '\x7b' ∉ combo.username.data) :
    GlobalChecker.replaceVariables "[USERNAME]" combo = combo.username := by
  unfold GlobalChecker.replaceVariables
  dsimp only
  rw [stringsReplaceAll_of_not_contains "[USERNAME]" "<USER>" combo.username (by decide)]
  rw [stringsReplaceAll_of_not_contains "[USERNAME]" "<PASS>" combo.password (by decide)]
  rw [stringsReplaceAll_of_not_contains "[USERNAME]" "<EMAIL>" combo.email (by decide)]
  rw [stringsReplaceAll_of_not_contains "[USERNAME]" "<username>" combo.username (by decide)]
  rw [stringsReplaceAll_of_not_contains "[USERNAME]" "<password>" combo.password (by decide)]
  rw [stringsReplaceAll_of_not_contains "[USERNAME]" "<email>" combo.email (by decide)]
  rw [stringsReplaceAll_self "[USERNAME]" combo.username '[' _ rfl]
  rw [stringsReplaceAll_fresh combo.username "[PASSWORD]" combo.password '[' _ rfl hlb]
  rw [stringsReplaceAll_fresh combo.username "[EMAIL]" combo.email '[' _ rfl hlb]
  rw [stringsReplaceAll_fresh combo.username "{USER}" combo.username '\x7b' _ rfl hbr]
  rw [stringsReplaceAll_fresh combo.username "{PASS}" combo.password '\x7b' _ rfl hbr]
  rw [stringsReplaceAll_fresh combo.username "{EMAIL}" combo.email '\x7b' _ rfl hbr]

/-- `GlobalChecker.replaceVariables` resolves `[PASSWORD]` to the
credential's password. -/
theorem globalReplace_PASSWORD_loli (combo : Combo)
    (hlt : '<' ∉ combo.password.data) (hlb : '[' ∉ combo.password.data)
    (hbr : '\x7b' ∉ combo.password.data) :
    GlobalChecker.replaceVariables "[PASSWORD]" combo = combo.password := by
  unfold GlobalChecker.replaceVariables
  dsimp only
  rw [stringsReplaceAll_of_not_contains "[PASSWORD]" "<USER>" combo.username (by decide)]
  rw [stringsReplaceAll_of_not_contains "[PASSWORD]" "<PASS>" combo.password (by decide)]
  rw [stringsReplaceAll_of_not_contains "[PASSWORD]" "<EMAIL>" combo.email (by decide)]
  rw [stringsReplaceAll_of_not_contains "[PASSWORD]" "<username>" combo.username (by decide)]
  rw [stringsReplaceAll_of_not_contains "[PASSWORD]" "<password>" combo.password (by decide)]
  rw [stringsReplaceAll_of_not_contains "[PASSWORD]" "<email>" combo.email (by decide)]
  rw [stringsReplaceAll_of_not_contains "[PASSWORD]" "[USERNAME]" combo.username (by decide)]
  rw [stringsReplaceAll_self "[PASSWORD]" combo.password '[' _ rfl]
  rw [stringsReplaceAll_fresh combo.password "[EMAIL]" combo.email '[' _ rfl hlb]
  rw [stringsReplaceAll_fresh combo.password "{USER}" combo.username '\x7b' _ rfl hbr]
  rw [stringsReplaceAll_fresh combo.password "{PASS}" combo.password '\x7b' _ rfl hbr]
  rw [stringsReplaceAll_fresh combo.password "{EMAIL}" combo.email '\x7b' _ rfl hbr]

/-- `GlobalChecker.replaceVariables` resolves `[EMAIL]` to the
credential's email. -/
theorem globalReplace_EMAIL_loli (combo : Combo)
    (hlt : '<' ∉ combo.email.data) (hlb : '[' ∉ combo.email.data)
    (hbr : '\x7b' ∉ combo.email.data) :
    GlobalChecker.replaceVariables "[EMAIL]" combo = combo.email := by
  unfold GlobalChecker.replaceVariables
  dsimp only
  rw [stringsReplaceAll_of_not_contains "[EMAIL]" "<USER>" combo.username (by decide)]
  rw [stringsReplaceAll_of_not_contains "[EMAIL]" "<PASS>" combo.password (by decide)]
  rw [stringsReplaceAll_of_not_contains "[EMAIL]" "<EMAIL>" combo.email (by decide)]
  rw [stringsReplaceAll_of_not_contains "[EMAIL]" "<username>" combo.username (by decide)]
  rw [stringsReplaceAll_of_not_contains "[EMAIL]" "<password>" combo.password (by decide)]
  rw [stringsReplaceAll_of_not_contains "[EMAIL]" "<email>" combo.email (by decide)]
  rw [stringsReplaceAll_of_not_contains "[EMAIL]" "[USERNAME]" combo.username (by decide)]
  rw [stringsReplaceAll_of_not_contains "[EMAIL]" "[PASSWORD]" combo.password (by decide)]
  rw [stringsReplaceAll_self "[EMAIL]" combo.email '[' _ rfl]
  rw [stringsReplaceAll_fresh combo.email "{USER}" combo.username '\x7b' _ rfl hbr]
  rw [stringsReplaceAll_fresh combo.email "{PASS}" combo.password '\x7b' _ rfl hbr]
  rw [stringsReplaceAll_fresh combo.email "{EMAIL}" combo.email '\x7b' _ rfl hbr]

/-- `GlobalChecker.replaceVariables` resolves `{USER}` to the
credential's username. -/
theorem globalReplace_USER_alt (combo : Combo)
    (hlt : '<' ∉ combo.username.data) (hlb : '[' ∉ combo.username.data)
    (hbr : '\x7b' ∉ combo.username.data) :
    GlobalChecker.replaceVariables "{USER}" combo = combo.username := by
  unfold GlobalChecker.replaceVariables
  dsimp only
  rw [stringsReplaceAll_of_not_contains "{USER}" "<USER>" combo.username (by decide)]
  rw [stringsReplaceAll_of_not_contains "{USER}" "<PASS>" combo.password (by decide)]
  rw [stringsReplaceAll_of_not_contains "{USER}" "<EMAIL>" combo.email (by decide)]
  rw [stringsReplaceAll_of_not_contains "{USER}" "<username>" combo.username (by decide)]
  rw [stringsReplaceAll_of_not_contains "{USER}" "<password>" combo.password (by decide)]
  rw [stringsReplaceAll_of_not_contains "{USER}" "<email>" combo.email (by decide)]
  rw [stringsReplaceAll_of_not_contains "{USER}" "[USERNAME]" combo.username (by decide)]
  rw [stringsReplaceAll_of_not_contains "{USER}" "[PASSWORD]" combo.password (by decide)]
  rw [stringsReplaceAll_of_not_contains "{USER}" "[EMAIL]" combo.email (by decide)]
  rw [stringsReplaceAll_self "{USER}" combo.username '\x7b' _ rfl]
  rw [stringsReplaceAll_fresh combo.username "{PASS}" combo.password '\x7b' _ rfl hbr]
  rw [stringsReplaceAll_fresh combo.username "{EMAIL}" combo.email '\x7b' _ rfl hbr]

/-- `GlobalChecker.replaceVariables` resolves `{PASS}` to the
credential's password. -/
theorem globalReplace_PASS_alt (combo : Combo)
    (hlt : '<' ∉ combo.password.data) (hlb : '[' ∉ combo.password.data)
    (hbr : '\x7b' ∉ combo.password.data) :
    GlobalChecker.replaceVariables "{PASS}" combo = combo.password := by
  unfold GlobalChecker.replaceVariables
  dsimp only
  rw [stringsReplaceAll_of_not_contains "{PASS}" "<USER>" combo.username (by decide)]
  rw [stringsReplaceAll_of_not_contains "{PASS}" "<PASS>" combo.password (by decide)]
  rw [stringsReplaceAll_of_not_contains "{PASS}" "<EMAIL>" combo.email (by decide)]
  rw [stringsReplaceAll_of_not_contains "{PASS}" "<username>" combo.username (by decide)]
  rw [stringsReplaceAll_of_not_contains "{PASS}" "<password>" combo.password (by decide)]
  rw [stringsReplaceAll_of_not_contains "{PASS}" "<email>" combo.email (by decide)]
  rw [stringsReplaceAll_of_not_contains "{PASS}" "[USERNAME]" combo.username (by decide)]
  rw [stringsReplaceAll_of_not_contains "{PASS}" "[PASSWORD]" combo.password (by decide)]
  rw [stringsReplaceAll_of_not_contains "{PASS}" "[EMAIL]" combo.email (by decide)]
  rw [stringsReplaceAll_of_not_contains "{PASS}" "{USER}" combo.username (by decide)]
  rw [stringsReplaceAll_self "{PASS}" combo.password '\x7b' _ rfl]
  rw [stringsReplaceAll_fresh combo.password "{EMAIL}" combo.email '\x7b' _ rfl hbr]

/-- `GlobalChecker.replaceVariables` resolves `{EMAIL}` to the
credential's email. -/
theorem globalReplace_EMAIL_alt (combo : Combo)
    (hlt : '<' ∉ combo.email.data) (hlb : '[' ∉ combo.email.data)
    (hbr : '\x7b' ∉ combo.email.data) :
    GlobalChecker.replaceVariables "{EMAIL}" combo = combo.email := by
  unfold GlobalChecker.replaceVariables
  dsimp only
  rw [stringsReplaceAll_of_not_contains "{EMAIL}" "<USER>" combo.username (by decide)]
  rw [stringsReplaceAll_of_not_contains "{EMAIL}" "<PASS>" combo.password (by decide)]
  rw [stringsReplaceAll_of_not_contains "{EMAIL}" "<EMAIL>" combo.email (by decide)]
  rw [stringsReplaceAll_of_not_contains "{EMAIL}" "<username>" combo.username (by decide)]
  rw [stringsReplaceAll_of_not_contains "{EMAIL}" "<password>" combo.password (by decide)]
  rw [stringsReplaceAll_of_not_contains "{EMAIL}" "<email>" combo.email (by decide)]
  rw [stringsReplaceAll_of_not_contains "{EMAIL}" "[USERNAME]" combo.username (by decide)]
  rw [stringsReplaceAll_of_not_contains "{EMAIL}" "[PASSWORD]" combo.password (by decide)]
  rw [stringsReplaceAll_of_not_contains "{EMAIL}" "[EMAIL]" combo.email (by decide)]
  rw [stringsReplaceAll_of_not_contains "{EMAIL}" "{USER}" combo.username (by decide)]
  rw [stringsReplaceAll_of_not_contains "{EMAIL}" "{PASS}" combo.password (by decide)]
  rw [stringsReplaceAll_self "{EMAIL}" combo.email '\x7b' _ rfl]


/-- The `Checker` engine (via `VariableManipulator.ReplaceVariables`)
resolves `<USER>` to the credential's username, for every credential. -/
theorem checkerReplace_USER (combo : Combo) :
    Checker.replaceVariables "<USER>" combo = combo.username := by
  simp [Checker.replaceVariables, VariableManipulator.ReplaceVariables,
    VariableManipulator.replaceVariablesAux, VariableManipulator.resolveMatch,
    Checker.comboVariableList, VariableManipulator.VariableList.Set,
    VariableManipulator.VariableList.Get, VariableManipulator.variableToString,
    stringsContains, isInfixOfChars, List.lookup, List.takeWhile, List.drop,
    Bool.and_true, Bool.true_and, Bool.and_false, Bool.false_and, Bool.and_self]

/-- The `Checker` engine (via `VariableManipulator.ReplaceVariables`)
resolves `<PASS>` to the credential's password, for every credential. -/
theorem checkerReplace_PASS (combo : Combo) :
    Checker.replaceVariables "<PASS>" combo = combo.password := by
  simp [Checker.replaceVariables, VariableManipulator.ReplaceVariables,
    VariableManipulator.replaceVariablesAux, VariableManipulator.resolveMatch,
    Checker.comboVariableList, VariableManipulator.VariableList.Set,
    VariableManipulator.VariableList.Get, VariableManipulator.variableToString,
    stringsContains, isInfixOfChars, List.lookup, List.takeWhile, List.drop,
    Bool.and_true, Bool.true_and, Bool.and_false, Bool.false_and, Bool.and_self]

/-- The `Checker` engine (via `VariableManipulator.ReplaceVariables`)
resolves `<EMAIL>` to the credential's email, for every credential. -/
theorem checkerReplace_EMAIL (combo : Combo) :
    Checker.replaceVariables "<EMAIL>" combo = combo.email := by
  simp [Checker.replaceVariables, VariableManipulator.ReplaceVariables,
    VariableManipulator.replaceVariablesAux, VariableManipulator.resolveMatch,
    Checker.comboVariableList, VariableManipulator.VariableList.Set,
    VariableManipulator.VariableList.Get, VariableManipulator.variableToString,
    stringsContains, isInfixOfChars, List.lookup, List.takeWhile, List.drop,
    Bool.and_true, Bool.true_and, Bool.and_false, Bool.false_and, Bool.and_self]

/-- The `Checker` engine (via `VariableManipulator.ReplaceVariables`)
resolves `<username>` to the credential's username, for every credential. -/
theorem checkerReplace_username (combo : Combo) :
    Checker.replaceVariables "<username>" combo = combo.username := by
  simp [Checker.replaceVariables, VariableManipulator.ReplaceVariables,
    VariableManipulator.replaceVariablesAux, VariableManipulator.resolveMatch,
    Checker.comboVariableList, VariableManipulator.VariableList.Set,
    VariableManipulator.VariableList.Get, VariableManipulator.variableToString,
    stringsContains, isInfixOfChars, List.lookup, List.takeWhile, List.drop,
    Bool.and_true, Bool.true_and, Bool.and_false, Bool.false_and, Bool.and_self]

/-- The `Checker` engine (via `VariableManipulator.ReplaceVariables`)
resolves `<password>` to the credential's password, for every credential. -/
theorem checkerReplace_password (combo : Combo) :
    Checker.replaceVariables "<password>" combo = combo.password := by
  simp [Checker.replaceVariables, VariableManipulator.ReplaceVariables,
    VariableManipulator.replaceVariablesAux, VariableManipulator.resolveMatch,
    Checker.comboVariableList, VariableManipulator.VariableList.Set,
    VariableManipulator.VariableList.Get, VariableManipulator.variableToString,
    stringsContains, isInfixOfChars, List.lookup, List.takeWhile, List.drop,
    Bool.and_true, Bool.true_and, Bool.and_false, Bool.false_and, Bool.and_self]

/-- The `Checker` engine (via `VariableManipulator.ReplaceVariables`)
resolves `<email>` to the credential's email, for every credential. -/
theorem checkerReplace_email (combo : Combo) :
    Checker.replaceVariables "<email>" combo = combo.email := by
  simp [Checker.replaceVariables, VariableManipulator.ReplaceVariables,
    VariableManipulator.replaceVariablesAux, VariableManipulator.resolveMatch,
    Checker.comboVariableList, VariableManipulator.VariableList.Set,
    VariableManipulator.VariableList.Get, VariableManipulator.variableToString,
    stringsContains, isInfixOfChars, List.lookup, List.takeWhile, List.drop,
    Bool.and_true, Bool.true_and, Bool.and_false, Bool.false_and, Bool.and_self]


/-- **C7 (counterexample).**  The `Checker` engine substitutes through
`VariableManipulator.ReplaceVariables`, whose regexp understands only the
`<...>` syntax: the Loli-style `[USERNAME]` and the alternative-style
`\x7bUSER\x7d` placeholders pass through unreplaced (the credential's
username is `"alice"`), so not every engine honors all four syntaxes. -/
theorem C7_checker_ignores_bracket_syntax :
    Checker.replaceVariables "[USERNAME]" sampleCombo = "[USERNAME]" ∧
    Checker.replaceVariables "{USER}" sampleCombo = "{USER}" ∧
    sampleCombo.username = "alice" := by
  refine ⟨?_, ?_, rfl⟩ <;>
    simp [Checker.replaceVariables, VariableManipulator.ReplaceVariables,
      VariableManipulator.replaceVariablesAux, VariableManipulator.resolveMatch,
      Checker.comboVariableList, VariableManipulator.VariableList.Set,
      VariableManipulator.VariableList.Get, VariableManipulator.variableToString,
      stringsContains, isInfixOfChars, List.lookup, List.takeWhile, List.drop,
      Bool.and_true, Bool.true_and, Bool.and_false, Bool.false_and, Bool.and_self,
      sampleCombo]

/-- **C7 (amended).**  `GlobalChecker.replaceVariables` resolves all four
placeholder syntaxes to the same credential fields (stated for
credentials whose fields do not themselves contain a placeholder-opening
character `<`, `[` or `\x7b`, so that a substituted value is not hit by a
later pattern), and the `Checker` engine resolves the two angle-bracket
syntaxes for every credential — but not the `[...]` or `\x7b...\x7d`
syntaxes (see the counterexample). -/
theorem C7_variable_substitution (combo : Combo)
    (hult : '<' ∉ combo.username.data) (hulb : '[' ∉ combo.username.data)
    (hubr : '\x7b' ∉ combo.username.data)
    (hplt : '<' ∉ combo.password.data) (hplb : '[' ∉ combo.password.data)
    (hpbr : '\x7b' ∉ combo.password.data)
    (helt : '<' ∉ combo.email.data) (helb : '[' ∉ combo.email.data)
    (hebr : '\x7b' ∉ combo.email.data) :
    (GlobalChecker.replaceVariables "<USER>" combo = combo.username ∧
      GlobalChecker.replaceVariables "<PASS>" combo = combo.password ∧
      GlobalChecker.replaceVariables "<EMAIL>" combo = combo.email ∧
      GlobalChecker.replaceVariables "<username>" combo = combo.username ∧
      GlobalChecker.replaceVariables "<password>" combo = combo.password ∧
      GlobalChecker.replaceVariables "<email>" combo = combo.email ∧
      GlobalChecker.replaceVariables "[USERNAME]" combo = combo.username ∧
      GlobalChecker.replaceVariables "[PASSWORD]" combo = combo.password ∧
      GlobalChecker.replaceVariables "[EMAIL]" combo = combo.email ∧
      GlobalChecker.replaceVariables "{USER}" combo = combo.username ∧
      GlobalChecker.replaceVariables "{PASS}" combo = combo.password ∧
      GlobalChecker.replaceVariables "{EMAIL}" combo = combo.email) ∧
    (Checker.replaceVariables "<USER>" combo = combo.username ∧
      Checker.replaceVariables "<PASS>" combo = combo.password ∧
      Checker.replaceVariables "<EMAIL>" combo = combo.email ∧
      Checker.replaceVariables "<username>" combo = combo.username ∧
      Checker.replaceVariables "<password>" combo = combo.password ∧
      Checker.replaceVariables "<email>" combo = combo.email) :=
  ⟨⟨globalReplace_USER_openbullet combo hult hulb hubr,
    globalReplace_PASS_openbullet combo hplt hplb hpbr,
    globalReplace_EMAIL_openbullet combo helt helb hebr,
    globalReplace_username_silverbullet combo hult hulb hubr,
    globalReplace_password_silverbullet combo hplt hplb hpbr,
    globalReplace_email_silverbullet combo helt helb hebr,
    globalReplace_USERNAME_loli combo hult hulb hubr,
    globalReplace_PASSWORD_loli combo hplt hplb hpbr,
    globalReplace_EMAIL_loli combo helt helb hebr,
    globalReplace_USER_alt combo hult hulb hubr,
    globalReplace_PASS_alt combo hplt hplb hpbr,
    globalReplace_EMAIL_alt combo helt helb hebr⟩,
   ⟨checkerReplace_USER combo, checkerReplace_PASS combo, checkerReplace_EMAIL combo, checkerReplace_username combo, checkerReplace_password combo, checkerReplace_email combo⟩⟩


/-- **C7 witness.**  The substitution theorem applied to the concrete
credential `alice:hunter2` (whose fields contain no placeholder-opening
characters): all four syntaxes resolve in the global engine and the two
angle-bracket syntaxes resolve in the checker engine. -/
theorem C7_variable_substitution_witness :
    (GlobalChecker.replaceVariables "<USER>" sampleCombo = sampleCombo.username ∧
      GlobalChecker.replaceVariables "<PASS>" sampleCombo = sampleCombo.password ∧
      GlobalChecker.replaceVariables "<EMAIL>" sampleCombo = sampleCombo.email ∧
      GlobalChecker.replaceVariables "<username>" sampleCombo = sampleCombo.username ∧
      GlobalChecker.replaceVariables "<password>" sampleCombo = sampleCombo.password ∧
      GlobalChecker.replaceVariables "<email>" sampleCombo = sampleCombo.email ∧
      GlobalChecker.replaceVariables "[USERNAME]" sampleCombo = sampleCombo.username ∧
      GlobalChecker.replaceVariables "[PASSWORD]" sampleCombo = sampleCombo.password ∧
      GlobalChecker.replaceVariables "[EMAIL]" sampleCombo = sampleCombo.email ∧
      GlobalChecker.replaceVariables "{USER}" sampleCombo = sampleCombo.username ∧
      GlobalChecker.replaceVariables "{PASS}" sampleCombo = sampleCombo.password ∧
      GlobalChecker.replaceVariables "{EMAIL}" sampleCombo = sampleCombo.email) ∧
    (Checker.replaceVariables "<USER>" sampleCombo = sampleCombo.username ∧
      Checker.replaceVariables "<PASS>" sampleCombo = sampleCombo.password ∧
      Checker.replaceVariables "<EMAIL>" sampleCombo = sampleCombo.email ∧
      Checker.replaceVariables "<username>" sampleCombo = sampleCombo.username ∧
      Checker.replaceVariables "<password>" sampleCombo = sampleCombo.password ∧
      Checker.replaceVariables "<email>" sampleCombo = sampleCombo.email) :=
  C7_variable_substitution sampleCombo (by decide) (by decide) (by decide)
    (by decide) (by decide) (by decide) (by decide) (by decide) (by decide)
